import Mathlib

/-!
Verification of the lua-intf object-binding and type-marshalling engine.

This file gives a shallow embedding of the core of the library:
the Lua table heap as used by the binding code (tables with raw
get/set, metatables, userdata blocks carrying a class metatable),
the metatable-triple construction (`CppBindClassBase::buildMetaTable`),
the object retrieval walk (`CppObject::getObject` / `getExactObject`),
the `__index`/`__newindex` metamethod dispatch
(`CppBindClassMetaMethod::index` / `newIndex`), the scalar conversion
specializations (`LuaValueType<...>` in `LuaType.h`) and the argument
marshalling pipeline (`CppArg.h` / `CppBindMethodBase::call`).

Conventions:
* Lua C-API raw table access is modelled on an association-list heap;
  `lua_rawequal` on tables is identity of the table id.
* The process-unique static addresses produced by `CppObjectType<T>`
  (`classID` / `staticID` / `constID`) are modelled by an injective
  numbering of class tokens; `CppBindClassMetaMethod::signature()` is a
  further distinguished pointer.
* Errors raised with `luaL_error` / `lua_error` are modelled by `Except`.
* Loops that follow the `___super` chain take a fuel argument; `none`
  means the fuel ran out (never happens for well-formed heaps, which is
  proved where needed).
-/

namespace LuaIntfProof

/-- Identity of a C function (or C closure with its upvalues) stored in a
table.  Each constructor corresponds to one `lua_CFunction` of the
library; closures carry their captured upvalues as arguments. -/
inductive CFun where
  | indexMM
  | newIndexMM
  | errorReadOnly (name : String)
  | errorConstMismatch (name : String)
  | memberGetter (tok : Nat) (gid : Nat)
  | memberSetter (tok : Nat) (sid : Nat)
  | classMethod (tok : Nat) (isConstFn : Bool) (mid : Nat)
  | destructor (tok : Nat) (isConst : Bool)
  deriving DecidableEq, Repr

/-- A Lua value as seen by the binding layer: nil, booleans, numbers,
strings, tables and userdata (both referenced by heap id), light
userdata (a raw pointer, used for the type-id keys) and C functions. -/
inductive LV where
  | nil
  | boolean (b : Bool)
  | num (n : Int)
  | str (s : String)
  | table (id : Nat)
  | lightud (p : Nat)
  | userdata (id : Nat)
  | cfn (f : CFun)
  deriving DecidableEq, Repr

/-- The table id carried by a value, when it is a table. -/
def LV.asTable : LV → Option Nat
  | .table i => some i
  | _ => none

/-- `lua_isuserdata`: true for full and light userdata. -/
def LV.isUserdataV : LV → Bool
  | .userdata _ => true
  | .lightud _ => true
  | _ => false

/-- `lua_isnoneornil` on a single value (absence is modelled separately
where it matters). -/
def LV.isNil : LV → Bool
  | .nil => true
  | _ => false

/-- `lua_typename` of the dynamic type of a value. -/
def luaTypename : LV → String
  | .nil => "nil"
  | .boolean _ => "boolean"
  | .num _ => "number"
  | .str _ => "string"
  | .table _ => "table"
  | .lightud _ => "userdata"
  | .userdata _ => "userdata"
  | .cfn _ => "function"

/-- A raised Lua error (`luaL_error` / `lua_error`). -/
inductive LuaError where
  | err (msg : String)
  deriving DecidableEq, Repr

instance {ε α : Type} [DecidableEq ε] [DecidableEq α] :
    DecidableEq (Except ε α) := fun a b =>
  match a, b with
  | .ok x, .ok y =>
      if h : x = y then isTrue (congrArg Except.ok h)
      else isFalse (fun hc => h (Except.ok.inj hc))
  | .ok _, .error _ => isFalse (fun hc => Except.noConfusion hc)
  | .error _, .ok _ => isFalse (fun hc => Except.noConfusion hc)
  | .error x, .error y =>
      if h : x = y then isTrue (congrArg Except.error h)
      else isFalse (fun hc => h (Except.error.inj hc))

/-- Raw lookup in a table's field list; missing keys read as nil. -/
def lookupField : List (LV × LV) → LV → LV
  | [], _ => .nil
  | (k0, v0) :: rest, k => if k0 = k then v0 else lookupField rest k

/-- Raw update of a table's field list (`lua_rawset`). -/
def setField : List (LV × LV) → LV → LV → List (LV × LV)
  | [], k, v => [(k, v)]
  | (k0, v0) :: rest, k, v =>
      if k0 = k then (k, v) :: rest else (k0, v0) :: setField rest k v

/-- One Lua table: raw fields plus its (optional) metatable reference. -/
structure Table where
  fields : List (LV × LV)
  meta : Option Nat
  deriving DecidableEq, Repr

/-- One userdata block created for a `CppObject`: it carries its class
metatable and the native object pointer (`CppObject::m_ptr`). -/
structure UData where
  mt : Nat
  ptr : Nat
  deriving DecidableEq, Repr

/-- Association-list lookup keyed by id. -/
def alookup {α : Type} : List (Nat × α) → Nat → Option α
  | [], _ => none
  | (i0, a0) :: rest, i => if i0 = i then some a0 else alookup rest i

/-- Association-list update keyed by id (replace first, else append). -/
def aset {α : Type} : List (Nat × α) → Nat → α → List (Nat × α)
  | [], i, a => [(i, a)]
  | (i0, a0) :: rest, i, a =>
      if i0 = i then (i, a) :: rest else (i0, a0) :: aset rest i a

/-- The Lua heap: all tables and userdata blocks, with fresh-id counters. -/
structure Heap where
  tables : List (Nat × Table)
  uds : List (Nat × UData)
  nextT : Nat
  nextU : Nat
  deriving DecidableEq, Repr

/-- The registry table (`LUA_REGISTRYINDEX`). -/
def registryId : Nat := 0

/-- The module (parent) table the classes are registered into. -/
def moduleId : Nat := 1

/-- Initial heap: an empty registry and an empty root module table. -/
def initialHeap : Heap :=
  { tables := [(registryId, ⟨[], none⟩), (moduleId, ⟨[], none⟩)]
    uds := []
    nextT := 2
    nextU := 0 }

def Heap.table? (h : Heap) (i : Nat) : Option Table :=
  alookup h.tables i

/-- `lua_rawget` on table `i`. -/
def Heap.rawget (h : Heap) (i : Nat) (k : LV) : LV :=
  match h.table? i with
  | some t => lookupField t.fields k
  | none => .nil

/-- `lua_rawset` on table `i`.  In the source every raw set is performed
through a `LuaRef` that references a live table, so the missing-table
case cannot arise; it is totalized here by treating the table as empty. -/
def Heap.rawset (h : Heap) (i : Nat) (k v : LV) : Heap :=
  { h with
    tables :=
      aset h.tables i
        { fields := setField ((h.table? i).getD ⟨[], none⟩).fields k v,
          meta := ((h.table? i).getD ⟨[], none⟩).meta } }

/-- `lua_setmetatable` on table `i` (the metatable triple sets each
table as its own metatable). -/
def Heap.setMeta (h : Heap) (i target : Nat) : Heap :=
  { h with
    tables :=
      aset h.tables i
        { fields := ((h.table? i).getD ⟨[], none⟩).fields,
          meta := some target } }

/-- `lua_createtable`: allocate a fresh empty table. -/
def Heap.newTable (h : Heap) : Heap × Nat :=
  ({ h with tables := (h.nextT, ⟨[], none⟩) :: h.tables, nextT := h.nextT + 1 },
   h.nextT)

/-- `lua_getmetatable` of a value. -/
def Heap.metatableOf (h : Heap) : LV → Option Nat
  | .table i => (h.table? i).bind Table.meta
  | .userdata u => (alookup h.uds u).map UData.mt
  | _ => none

/-- Raw get through a value reference (nil unless it is a table). -/
def Heap.refGet (h : Heap) (r k : LV) : LV :=
  match r.asTable with
  | some i => h.rawget i k
  | none => .nil

/-- Raw set through a value reference (no-op unless it is a table;
in the source the reference is always a table). -/
def Heap.refSet (h : Heap) (r k v : LV) : Heap :=
  match r.asTable with
  | some i => h.rawset i k v
  | none => h

/-! ## Class identity tokens

`CppObjectType<T>` exposes three process-unique static addresses per
class `T` (`classID`, `staticID`, `constID`), and
`CppBindClassMetaMethod::signature()` is one more.  A class is modelled
by a numeric token `tok`; the four address families are packed into
`Nat` injectively, which models the never-collide invariant of distinct
static storage. -/

/-- The `CppBindClassMetaMethod::signature()` pointer. -/
def signaturePtr : Nat := 0

/-- `CppObjectType<T>::classID()` for class token `tok`. -/
def classID (tok : Nat) : Nat := 3 * tok + 1

/-- `CppObjectType<T>::staticID()` for class token `tok`. -/
def staticID (tok : Nat) : Nat := 3 * tok + 2

/-- `CppObjectType<T>::constID()` for class token `tok`. -/
def constID (tok : Nat) : Nat := 3 * tok + 3

/-- `CppObject::getClassID<T>(is_const)`. -/
def getClassIDOf (tok : Nat) (is_const : Bool) : Nat :=
  if is_const then constID tok else classID tok

/-- Modelled from the spec: `CppBindModule::getFullName` (declared in
`CppBindModule.h` but its definition is not among the given sources).
Per the spec a module binding is "a nested namespace" addressed by a
dotted path; for a class registered directly in the root module the
full name is simply the class name, which is the only case exercised
here. -/
def getFullName (_parent : Nat) (name : String) : String := name

/-! ## `CppBindClassBase::buildMetaTable`

Direct transcription of `CppBindClass.cpp` lines 201-271.  Tables are
allocated in source order: `clazz_const`, its `___getters` and
`___setters`, `clazz`, its `___setters` (the getters table is shared
with `clazz_const`), `clazz_static`, its `___getters` and
`___setters`. -/

/-- `buildMetaTable(meta, parent, name, static_id, clazz_id, const_id)`.
Returns the new heap, the resulting `meta` reference (the static
metatable) and whether a new triple was built. -/
def buildMetaTable3 (h : Heap) (parent : Nat) (name : String)
    (static_id clazz_id const_id : Nat) : Heap × LV × Bool :=
  let ref := h.rawget parent (.str name)
  if ref ≠ .nil then (h, ref, false)
  else
    let type_name := "class<" ++ getFullName parent name ++ ">"
    let r1 := h.newTable
    let cc := r1.2
    let h2 := r1.1.setMeta cc cc
    let h3 := h2.rawset cc (.str "__index") (.cfn .indexMM)
    let h4 := h3.rawset cc (.str "__newindex") (.cfn .newIndexMM)
    let r2 := h4.newTable
    let h5 := r2.1.rawset cc (.str "___getters") (.table r2.2)
    let r3 := h5.newTable
    let h6 := r3.1.rawset cc (.str "___setters") (.table r3.2)
    let h7 := h6.rawset cc (.str "___type") (.str ("const_" ++ type_name))
    let h8 := h7.rawset cc (.str "___const") (.table cc)
    let h9 := h8.rawset cc (.lightud signaturePtr) (.lightud const_id)
    let r4 := h9.newTable
    let cz := r4.2
    let h10 := r4.1.setMeta cz cz
    let h11 := h10.rawset cz (.str "__index") (.cfn .indexMM)
    let h12 := h11.rawset cz (.str "__newindex") (.cfn .newIndexMM)
    let h13 := h12.rawset cz (.str "___getters") (h12.rawget cc (.str "___getters"))
    let r5 := h13.newTable
    let h14 := r5.1.rawset cz (.str "___setters") (.table r5.2)
    let h15 := h14.rawset cz (.str "___type") (.str type_name)
    let h16 := h15.rawset cz (.str "___const") (.table cc)
    let h17 := h16.rawset cz (.lightud signaturePtr) (.lightud clazz_id)
    let r6 := h17.newTable
    let cs := r6.2
    let h18 := r6.1.setMeta cs cs
    let h19 := h18.rawset cs (.str "__index") (.cfn .indexMM)
    let h20 := h19.rawset cs (.str "__newindex") (.cfn .newIndexMM)
    let r7 := h20.newTable
    let h21 := r7.1.rawset cs (.str "___getters") (.table r7.2)
    let r8 := h21.newTable
    let h22 := r8.1.rawset cs (.str "___setters") (.table r8.2)
    let h23 := h22.rawset cs (.str "___type") (.str ("static_" ++ type_name))
    let h24 := h23.rawset cs (.str "___class") (.table cz)
    let h25 := h24.rawset cs (.str "___const") (.table cc)
    let h26 := h25.rawset cs (.str "___parent") (.table parent)
    let h27 := h26.rawset cs (.lightud signaturePtr) (.lightud static_id)
    let h28 := h27.rawset registryId (.lightud clazz_id) (.table cz)
    let h29 := h28.rawset registryId (.lightud const_id) (.table cc)
    let h30 := h29.rawset registryId (.lightud static_id) (.table cs)
    let h31 := h30.rawset parent (.str name) (.table cs)
    (h31, .table cs, true)

/-- The four-argument overload of `buildMetaTable`, which additionally
links the `___super` chain to an already-registered superclass. -/
def buildMetaTable4 (h : Heap) (parent : Nat) (name : String)
    (static_id clazz_id const_id super_static_id : Nat) : Heap × LV × Bool :=
  let r := buildMetaTable3 h parent name static_id clazz_id const_id
  if r.2.2 then
    let h1 := r.1
    let meta := r.2.1
    let sup := h1.rawget registryId (.lightud super_static_id)
    let h2 := h1.refSet meta (.str "___super") sup
    let h3 := h2.refSet (h2.refGet meta (.str "___class")) (.str "___super")
      (h2.refGet sup (.str "___class"))
    let h4 := h3.refSet (h3.refGet meta (.str "___const")) (.str "___super")
      (h3.refGet sup (.str "___const"))
    (h4, meta, true)
  else r

/-- `CppBindClass<T>::bind`: build the metatable triple and install the
per-class `__gc` finalizers. -/
def bindClass (h : Heap) (parent tok : Nat) (name : String) : Heap × LV :=
  let r := buildMetaTable3 h parent name (staticID tok) (classID tok) (constID tok)
  if r.2.2 then
    let h1 := r.1
    let meta := r.2.1
    let h2 := h1.refSet (h1.refGet meta (.str "___class")) (.str "__gc")
      (.cfn (.destructor tok false))
    let h3 := h2.refSet (h2.refGet meta (.str "___const")) (.str "__gc")
      (.cfn (.destructor tok true))
    (h3, meta)
  else (r.1, r.2.1)

/-- `CppBindClass<T>::extend`: as `bind` but with a superclass link. -/
def extendClass (h : Heap) (parent tok : Nat) (name : String) (superTok : Nat) :
    Heap × LV :=
  let r := buildMetaTable4 h parent name (staticID tok) (classID tok) (constID tok)
    (staticID superTok)
  if r.2.2 then
    let h1 := r.1
    let meta := r.2.1
    let h2 := h1.refSet (h1.refGet meta (.str "___class")) (.str "__gc")
      (.cfn (.destructor tok false))
    let h3 := h2.refSet (h2.refGet meta (.str "___const")) (.str "__gc")
      (.cfn (.destructor tok true))
    (h3, meta)
  else (r.1, r.2.1)

/-! ## Member registration (`CppBindClassBase::setMember*`)

These operate on `m_meta`, the static metatable of a class.  A closure
created with `createFunctionWithArgs(&errorReadOnly, name)` or
`createFunctionWithArgs(&errorConstMismatch, name)` is modelled by the
corresponding `CFun` constructor carrying its upvalue. -/

/-- `setMemberGetter`: write into the (shared) member getters table. -/
def setMemberGetter (h : Heap) (meta : Nat) (name : String) (getter : LV) : Heap :=
  h.refSet (h.refGet (h.rawget meta (.str "___class")) (.str "___getters"))
    (.str name) getter

/-- `setMemberSetter`: real setter into the mutable metatable's setters,
const-violation stub into the const metatable's setters. -/
def setMemberSetter (h : Heap) (meta : Nat) (name : String) (setter : LV) : Heap :=
  let h1 := h.refSet (h.refGet (h.rawget meta (.str "___class")) (.str "___setters"))
    (.str name) setter
  h1.refSet (h1.refGet (h1.rawget meta (.str "___const")) (.str "___setters"))
    (.str name) (.cfn (.errorConstMismatch name))

/-- `setMemberReadOnly`: read-only stub into both setters tables. -/
def setMemberReadOnly (h : Heap) (meta : Nat) (name : String) : Heap :=
  let h1 := h.refSet (h.refGet (h.rawget meta (.str "___class")) (.str "___setters"))
    (.str name) (.cfn (.errorReadOnly name))
  h1.refSet (h1.refGet (h1.rawget meta (.str "___const")) (.str "___setters"))
    (.str name) (.cfn (.errorReadOnly name))

/-- `setMemberFunction`: the real function into the mutable metatable;
into the const metatable the same function if it is const, otherwise an
`errorConstMismatch` stub. -/
def setMemberFunction (h : Heap) (meta : Nat) (name : String) (proc : LV)
    (is_const : Bool) : Heap :=
  let h1 := h.refSet (h.rawget meta (.str "___class")) (.str name) proc
  h1.refSet (h1.rawget meta (.str "___const")) (.str name)
    (if is_const then proc else .cfn (.errorConstMismatch name))

/-! ## Bound object creation (`CppObject::allocate`)

`allocate` creates the userdata block and attaches the metatable
registered for the class at the requested const-ness
(`lua_rawgetp(L, LUA_REGISTRYINDEX, getClassID<T>(is_const))` followed
by `luaL_checktype` and `lua_setmetatable`).  The native object pointer
stored in the block is abstracted to `p`. -/
def allocate (h : Heap) (tok : Nat) (is_const : Bool) (p : Nat) :
    Option (Heap × Nat) :=
  match (h.rawget registryId (.lightud (getClassIDOf tok is_const))).asTable with
  | some mtid =>
      some ({ h with
              uds := (h.nextU, ⟨mtid, p⟩) :: h.uds,
              nextU := h.nextU + 1 },
            h.nextU)
  | none => none

/-! ## Registration sequences

A registered hierarchy is a list of `RegSpec`s processed in order by
`CppBindModule::beginClass` / `beginExtendClass`, all in the root
module. -/

structure RegSpec where
  tok : Nat
  name : String
  superTok : Option Nat
  deriving DecidableEq, Repr

/-- Process one registration. -/
def registerClass (h : Heap) (r : RegSpec) : Heap :=
  match r.superTok with
  | none => (bindClass h moduleId r.tok r.name).1
  | some s => (extendClass h moduleId r.tok r.name s).1

/-- Process a whole registration list starting from the initial heap. -/
def buildAll (regs : List RegSpec) : Heap :=
  regs.foldl registerClass initialHeap

/-! ## The global registration invariant

With all classes registered into the root module, the `k`-th
registration (0-based) allocates its eight tables at a predictable
base, so distinctness of all metatables across classes is arithmetic. -/

/-- Const metatable of the `k`-th registered class. -/
def ccId (k : Nat) : Nat := 2 + 8 * k

/-- Shared member-getters table of the `k`-th registered class. -/
def ccgId (k : Nat) : Nat := 2 + 8 * k + 1

/-- Const-instance setters table of the `k`-th registered class. -/
def ccsId (k : Nat) : Nat := 2 + 8 * k + 2

/-- Class (mutable-instance) metatable of the `k`-th registered class. -/
def czId (k : Nat) : Nat := 2 + 8 * k + 3

/-- Mutable-instance setters table of the `k`-th registered class. -/
def czsId (k : Nat) : Nat := 2 + 8 * k + 4

/-- Static metatable of the `k`-th registered class. -/
def csId (k : Nat) : Nat := 2 + 8 * k + 5

/-- The structural facts that hold for the `k`-th registered class. -/
structure ClassFacts (regs : List RegSpec) (h : Heap) (k : Nat) (r : RegSpec) : Prop where
  regClazz : h.rawget registryId (.lightud (classID r.tok)) = .table (czId k)
  regConst : h.rawget registryId (.lightud (constID r.tok)) = .table (ccId k)
  regStatic : h.rawget registryId (.lightud (staticID r.tok)) = .table (csId k)
  moduleEntry : h.rawget moduleId (.str r.name) = .table (csId k)
  czGetters : h.rawget (czId k) (.str "___getters") = .table (ccgId k)
  czSetters : h.rawget (czId k) (.str "___setters") = .table (czsId k)
  czConst : h.rawget (czId k) (.str "___const") = .table (ccId k)
  czSig : h.rawget (czId k) (.lightud signaturePtr) = .lightud (classID r.tok)
  czGc : h.rawget (czId k) (.str "__gc") = .cfn (.destructor r.tok false)
  ccGetters : h.rawget (ccId k) (.str "___getters") = .table (ccgId k)
  ccSetters : h.rawget (ccId k) (.str "___setters") = .table (ccsId k)
  ccConst : h.rawget (ccId k) (.str "___const") = .table (ccId k)
  ccSig : h.rawget (ccId k) (.lightud signaturePtr) = .lightud (constID r.tok)
  ccGc : h.rawget (ccId k) (.str "__gc") = .cfn (.destructor r.tok true)
  csClass : h.rawget (csId k) (.str "___class") = .table (czId k)
  csConst : h.rawget (csId k) (.str "___const") = .table (ccId k)
  czDirect : ∀ s : String, s ≠ "__index" → s ≠ "__newindex" → s ≠ "___getters" →
    s ≠ "___setters" → s ≠ "___type" → s ≠ "___const" → s ≠ "__gc" →
    s ≠ "___super" → h.rawget (czId k) (.str s) = .nil
  ccDirect : ∀ s : String, s ≠ "__index" → s ≠ "__newindex" → s ≠ "___getters" →
    s ≠ "___setters" → s ≠ "___type" → s ≠ "___const" → s ≠ "__gc" →
    s ≠ "___super" → h.rawget (ccId k) (.str s) = .nil
  superF :
    match r.superTok with
    | none =>
        h.rawget (czId k) (.str "___super") = .nil ∧
        h.rawget (ccId k) (.str "___super") = .nil
    | some st =>
        ∃ j, j < k ∧ (∃ rj, regs.get? j = some rj ∧ rj.tok = st) ∧
          h.rawget (czId k) (.str "___super") = .table (czId j) ∧
          h.rawget (ccId k) (.str "___super") = .table (ccId j)

/-- Wellformedness of a registration list: distinct class tokens,
distinct class names, and every superclass registered earlier. -/
def RegsWF (regs : List RegSpec) : Prop :=
  (regs.map RegSpec.tok).Nodup ∧ (regs.map RegSpec.name).Nodup ∧
  ∀ k, k < regs.length → ∀ r, regs.get? k = some r → ∀ st, r.superTok = some st →
    ∃ j, j < k ∧ ∃ rj, regs.get? j = some rj ∧ rj.tok = st

/-- The invariant of the heap after processing a registration list. -/
structure BuiltInv (regs : List RegSpec) (h : Heap) : Prop where
  nextTEq : h.nextT = 2 + 8 * regs.length
  udsEq : h.uds = []
  moduleFree : ∀ s : String, (∀ r ∈ regs, r.name ≠ s) →
    h.rawget moduleId (.str s) = .nil
  registryFree : ∀ p : Nat,
    (∀ r ∈ regs, p ≠ classID r.tok ∧ p ≠ constID r.tok ∧ p ≠ staticID r.tok) →
    h.rawget registryId (.lightud p) = .nil
  classFacts : ∀ k r, regs.get? k = some r → ClassFacts regs h k r

/-! ## `CppObject::typeMismatchError`, `getObject`, `getExactObject`

Transcription of `CppObject.cpp` lines 71-185. -/

/-- `lua_tostring` (strings and numbers only). -/
def lvToStringOpt : LV → Option String
  | .str s => some s
  | .num n => some (toString n)
  | _ => none

/-- `CppObject::typeMismatchError`: build the "<expected> expected, got
<actual>" message from the `___type` fields of the expected and actual
metatables, falling back to the dynamic type name of the value when the
actual metatable carries no `___type`.  The `luaL_where` prefix is
omitted. -/
def typeMismatchErr (h : Heap) (expectedMT actualMT : Nat) (v : LV) : LuaError :=
  let expected := (lvToStringOpt (h.rawget expectedMT (.str "___type"))).getD "(null)"
  let actual :=
    match lvToStringOpt (h.rawget actualMT (.str "___type")) with
    | some s => s
    | none => luaTypename v
  .err (expected ++ " expected, got " ++ actual)

/-- The retrieval loop of `CppObject::getObject` (`CppObject.cpp` lines
159-182): compare the current metatable against the requested base
metatable, follow `___super` on mismatch, and raise the type-mismatch
error when the chain ends. -/
def getObjectLoop (h : Heap) (v : LV) (base : Nat) : Nat → Nat → Option (Except LuaError Unit)
  | 0, _ => none
  | fuel + 1, mt =>
      if mt = base then some (.ok ())
      else
        match h.rawget mt (.str "___super") with
        | .nil => some (.error (typeMismatchErr h base mt v))
        | .table smt => getObjectLoop h v base fuel smt
        | _ => none

/-- `CppObject::getObject(L, index, base_id, is_const)`: userdata check,
registry lookup of the base metatable, the `___const` substitution for
const-requested retrieval, then the chain walk.  Returns the userdata
id of the `CppObject` block on success. -/
def getObject (h : Heap) (v : LV) (base_id : Nat) (is_const : Bool) (fuel : Nat) :
    Option (Except LuaError Nat) :=
  if ¬ v.isUserdataV then
    some (.error (.err ("expect userdata, got " ++ luaTypename v)))
  else
    match (h.rawget registryId (.lightud base_id)).asTable with
    | none => some (.error (.err "unknown class (null metatable)"))
    | some base_mt =>
        match v with
        | .userdata u =>
            match alookup h.uds u with
            | none => none
            | some ud =>
                if is_const then
                  match (h.rawget ud.mt (.str "___const")).asTable with
                  | none => some (.error (.err "unknown class (null const metatable)"))
                  | some cmt =>
                      (getObjectLoop h v base_mt fuel cmt).map
                        (Except.map fun _ => u)
                else
                  (getObjectLoop h v base_mt fuel ud.mt).map
                    (Except.map fun _ => u)
        | _ => none

/-- `CppObject::getObject<T>(L, index, is_const)`: the public template
entry selects the base id from the class token and the const-ness. -/
def getObjectT (h : Heap) (v : LV) (tok : Nat) (is_const : Bool) (fuel : Nat) :
    Option (Except LuaError Nat) :=
  getObject h v (getClassIDOf tok is_const) is_const fuel

/-- `CppObject::get<T>`: retrieve and return the native pointer
(`CppObject::ptr()`). -/
def cppGet (h : Heap) (v : LV) (tok : Nat) (is_const : Bool) (fuel : Nat) :
    Option (Except LuaError Nat) :=
  (getObjectT h v tok is_const fuel).map (Except.map fun u =>
    match alookup h.uds u with
    | some ud => ud.ptr
    | none => 0)

/-- `CppObject::getExactObject(L, index, class_id)`: raw-equality of the
object's metatable against the registered metatable, no chain walk
(`CppObject.cpp` lines 97-122).  The `assert(lua_istable(L, -1))` on
the registry entry is a debug-only assert; the unregistered case is
left unmodelled. -/
def getExactObject (h : Heap) (v : LV) (class_id : Nat) :
    Option (Except LuaError Nat) :=
  if ¬ v.isUserdataV then
    some (.error (.err ("expect userdata, got " ++ luaTypename v)))
  else
    match v with
    | .userdata u =>
        match alookup h.uds u with
        | none => none
        | some ud =>
            let reg := h.rawget registryId (.lightud class_id)
            if reg = .table ud.mt then some (.ok u)
            else
              match reg.asTable with
              | some rt => some (.error (typeMismatchErr h rt ud.mt v))
              | none => none
    | _ => none

/-- `CppObject::getExactObject<T>(L, index, is_const)`. -/
def getExactObjectT (h : Heap) (v : LV) (tok : Nat) (is_const : Bool) :
    Option (Except LuaError Nat) :=
  getExactObject h v (getClassIDOf tok is_const)

/-- The `___super` chain starting at a metatable, up to the chain end.
`some l` means the walk reaches a table whose `___super` is nil after
listing `l`; `none` means the fuel ran out or a malformed link was hit. -/
def chainTo (h : Heap) : Nat → Nat → Option (List Nat)
  | 0, _ => none
  | fuel + 1, mt =>
      match h.rawget mt (.str "___super") with
      | .nil => some [mt]
      | .table s => (chainTo h fuel s).map (mt :: ·)
      | _ => none

/-! ## Calling the stored C functions

The behaviour of the native code behind member getters and bound
methods is abstracted into an environment; the `Bool` component of a
call result records whether any underlying native member body actually
ran (the error stubs never run one). -/

structure NativeEnv where
  /-- Value produced by a member getter (`CppBindClassVariable::get`
  reading `obj->**mp`), per getter id and object pointer. -/
  readVar : Nat → Nat → LV
  /-- Result of an underlying member function body
  (`CppInvokeClassMethod`), per method id and object pointer. -/
  methodRun : Nat → Nat → LV

/-- Single quotes around a name, as produced by the `luaL_error`
format strings of the library. -/
def quoteStr (s : String) : String := "\x27" ++ s ++ "\x27"

/-- `lua_tostring` of an error-message key, as used in the metamethod
error formats. -/
def keyDisplay : LV → String
  | .str s => s
  | .num n => toString n
  | _ => "?"

/-- Invoke a stored C function (`lua_call` on a `lua_CFunction` of the
library) with the given argument list.

* `errorReadOnly` / `errorConstMismatch`
  (`CppBindClass.cpp` lines 187-197) raise their error and never run
  native code.
* `memberGetter` / `memberSetter` (`CppBindClassVariable::get/set`,
  `CppBindClass.h` lines 225-253): retrieve the receiver with
  `CppObject::get<T>(L, 1, true)` resp. `(L, 1, false)` and then run the
  native member access.  The conversion of the assigned value is
  covered by the marshalling model and is not repeated here.
* `classMethod` (`CppBindClassMethodBase::call`, `CppBindClass.h` lines
  101-118, for a method without parameters): retrieve the receiver with
  the const-ness of the method, then run the body.  The result push of
  `CppInvokeClassMethod` (whose header is not among the given sources)
  is modelled from the spec, section 4.4: invoke the callable and push
  its result.
* `destructor` (`CppBindClassDestructor::call`, `CppBindClass.h` lines
  70-86): retrieve with `getExactObject` and destroy. -/
def callCFun (h : Heap) (env : NativeEnv) (fuel : Nat) (f : CFun) (args : List LV) :
    Option (Except LuaError (List LV) × Bool) :=
  match f with
  | .errorReadOnly n =>
      some (.error (.err ("class member " ++ quoteStr n ++ " is read-only")), false)
  | .errorConstMismatch n =>
      some (.error (.err ("class member function " ++ quoteStr n ++
        " can not be access by const object")), false)
  | .memberGetter tok gid =>
      match cppGet h (args.headD .nil) tok true fuel with
      | none => none
      | some (.error e) => some (.error e, false)
      | some (.ok p) => some (.ok [env.readVar gid p], true)
  | .memberSetter tok _sid =>
      match cppGet h (args.headD .nil) tok false fuel with
      | none => none
      | some (.error e) => some (.error e, false)
      | some (.ok _) => some (.ok [], true)
  | .classMethod tok isConstFn mid =>
      match cppGet h (args.headD .nil) tok isConstFn fuel with
      | none => none
      | some (.error e) => some (.error e, false)
      | some (.ok p) => some (.ok [env.methodRun mid p], true)
  | .destructor tok isConst =>
      match getExactObjectT h (args.headD .nil) tok isConst with
      | none => none
      | some (.error e) => some (.error e, false)
      | some (.ok _) => some (.ok [], true)
  | .indexMM => none
  | .newIndexMM => none

/-! ## Metamethod dispatch (`CppBindClassMetaMethod::index` / `newIndex`)

Transcription of `CppBindClass.cpp` lines 34-185. -/

/-- The receiver is passed to a getter/setter closure only when it is a
userdata block (a plain table receiver, i.e. static access, passes
nothing). -/
def receiverArgs : LV → List LV
  | .userdata u => [.userdata u]
  | _ => []

/-- The signature verification shared by both metamethods: the
metatable's entry under the `signature()` pointer key is looked up in
the registry and must be raw-equal to the metatable itself. -/
def sigCheck (h : Heap) (self key : LV) : Option (Except LuaError Nat) :=
  match h.metatableOf self with
  | none => none
  | some mt =>
      let signVal := h.rawget mt (.lightud signaturePtr)
      if h.rawget registryId signVal = .table mt then some (.ok mt)
      else
        some (.error (.err ("access " ++ quoteStr (keyDisplay key) ++
          " : metatable is invalid")))

/-- The lookup loop of `index`: direct entry first, then the
`___getters` table (a found C function is called with the receiver when
it is a userdata), then `___super`; nil at chain end. -/
def indexLoop (h : Heap) (env : NativeEnv) (recv key : LV) :
    Nat → Nat → Option (Except LuaError LV)
  | 0, _ => none
  | fuel + 1, mt =>
      let direct := h.rawget mt key
      if direct ≠ .nil then some (.ok direct)
      else
        match (h.rawget mt (.str "___getters")).asTable with
        | none => none
        | some g =>
            match h.rawget g key with
            | .cfn f =>
                match callCFun h env fuel f (receiverArgs recv) with
                | none => none
                | some (.error e, _) => some (.error e)
                | some (.ok rets, _) => some (.ok (rets.headD .nil))
            | _ =>
                match h.rawget mt (.str "___super") with
                | .nil => some (.ok .nil)
                | .table smt => indexLoop h env recv key fuel smt
                | _ => none

/-- `CppBindClassMetaMethod::index`. -/
def index (h : Heap) (env : NativeEnv) (fuel : Nat) (self key : LV) :
    Option (Except LuaError LV) :=
  match sigCheck h self key with
  | none => none
  | some (.error e) => some (.error e)
  | some (.ok mt) => indexLoop h env self key fuel mt

/-- The assignment loop of `newIndex`: only the `___setters` tables are
consulted, then `___super`; a "no writable class member" error at chain
end. -/
def newIndexLoop (h : Heap) (env : NativeEnv) (recv key val : LV) :
    Nat → Nat → Option (Except LuaError Unit)
  | 0, _ => none
  | fuel + 1, mt =>
      match (h.rawget mt (.str "___setters")).asTable with
      | none => none
      | some s =>
          match h.rawget s key with
          | .cfn f =>
              match callCFun h env fuel f (receiverArgs recv ++ [val]) with
              | none => none
              | some (.error e, _) => some (.error e)
              | some (.ok _, _) => some (.ok ())
          | _ =>
              match h.rawget mt (.str "___super") with
              | .nil =>
                  some (.error (.err ("no writable class member " ++
                    quoteStr (keyDisplay key))))
              | .table smt => newIndexLoop h env recv key val fuel smt
              | _ => none

/-- `CppBindClassMetaMethod::newIndex`. -/
def newIndex (h : Heap) (env : NativeEnv) (fuel : Nat) (self key val : LV) :
    Option (Except LuaError Unit) :=
  match sigCheck h self key with
  | none => none
  | some (.error e) => some (.error e)
  | some (.ok mt) => newIndexLoop h env self key val fuel mt

/-! ## Class-type conversions (`impl/CppObject.h` lines 336-478) -/

/-- `LuaCppObject<T, IS_REF, IS_CONST>::get`: retrieve the object and
cast to the native reference (modelled by the native pointer). -/
def luaCppObjectGet (h : Heap) (v : LV) (tok : Nat) (is_const : Bool) (fuel : Nat) :
    Option (Except LuaError Nat) :=
  cppGet h v tok is_const fuel

/-- `LuaCppObject<T, IS_REF, IS_CONST>::opt`: transcription of
`impl/CppObject.h` lines 462-468.  The default argument is unnamed and
unused in the source; note the guard raises when the slot is *not*
nil. -/
def luaCppObjectOpt (h : Heap) (v : LV) (tok : Nat) (is_const : Bool)
    (_d : Nat) (fuel : Nat) : Option (Except LuaError Nat) :=
  if ¬ v.isNil then some (.error (.err "nil passed to reference"))
  else luaCppObjectGet h v tok is_const fuel

/-- `LuaCppObjectPtr<T, PTR, IS_CONST>::opt` (`impl/CppObject.h` lines
361-368): the default pointer is returned when the slot is
absent-or-nil. -/
def luaCppObjectPtrOpt (h : Heap) (v : LV) (tok : Nat) (is_const : Bool)
    (d : Nat) (fuel : Nat) : Option (Except LuaError Nat) :=
  if v.isNil then some (.ok d)
  else cppGet h v tok is_const fuel

/-! ## The scalar conversion specializations (`impl/LuaType.h`)

A stack slot as the conversion code sees it: `absent` is a position
beyond the stack top (`LUA_TNONE`).  `lua_Number` values are modelled
at integral values only, which covers every value the 64-bit integer
paths produce; `lua_Integer` is modelled as the exact 64-bit integer
subtype. -/

inductive Slot where
  | absent
  | nil
  | boolean (b : Bool)
  | integer (n : Int)
  | number (d : Int)
  | str (bytes : List Nat)
  | cfunction (f : Nat)
  | table (id : Nat)
  deriving DecidableEq, Repr

/-- `lua_isnoneornil`. -/
def isNoneOrNilS : Slot → Bool
  | .absent => true
  | .nil => true
  | _ => false

/-- `lua_typename` of a slot. -/
def slotTypename : Slot → String
  | .absent => "no value"
  | .nil => "nil"
  | .boolean _ => "boolean"
  | .integer _ => "number"
  | .number _ => "number"
  | .str _ => "string"
  | .cfunction _ => "function"
  | .table _ => "table"

/-- Decimal digit-string value (the VM's string-to-number coercion,
modelled for plain decimal strings). -/
def digitsValAux : Nat → List Nat → Option Nat
  | acc, [] => some acc
  | acc, d :: rest =>
      if 48 ≤ d ∧ d ≤ 57 then digitsValAux (acc * 10 + (d - 48)) rest else none

def parseDec : List Nat → Option Int
  | [] => none
  | 45 :: rest =>
      match rest with
      | [] => none
      | _ => (digitsValAux 0 rest).map (fun n => -(n : Int))
  | l => (digitsValAux 0 l).map (fun n => (n : Int))

/-- `luaL_checkinteger`: integer slots, integral floats and numeric
strings convert; anything else raises. -/
def checkInteger : Slot → Except LuaError Int
  | .integer n => .ok n
  | .number d => .ok d
  | .str bytes =>
      match parseDec bytes with
      | some n => .ok n
      | none => .error (.err "number expected, got string")
  | s => .error (.err ("number expected, got " ++ slotTypename s))

/-- `luaL_checknumber` (on the integral values modelled here). -/
def checkNumber : Slot → Except LuaError Int
  | .integer n => .ok n
  | .number d => .ok d
  | .str bytes =>
      match parseDec bytes with
      | some n => .ok n
      | none => .error (.err "number expected, got string")
  | s => .error (.err ("number expected, got " ++ slotTypename s))

/-- The byte string of a number converted by `lua_tolstring`. -/
def decimalBytes (n : Int) : List Nat :=
  (toString n).toList.map Char.toNat

/-- `luaL_checklstring`: strings, and numbers coerced to strings;
anything else raises. -/
def checkLString : Slot → Except LuaError (List Nat)
  | .str bytes => .ok bytes
  | .integer n => .ok (decimalBytes n)
  | .number d => .ok (decimalBytes d)
  | s => .error (.err ("string expected, got " ++ slotTypename s))

/-- Two's-complement wrap to a signed `w`-bit value (a C integral
conversion). -/
def wrapInt (w : Nat) (v : Int) : Int :=
  (v + 2 ^ (w - 1)) % 2 ^ w - 2 ^ (w - 1)

/-- `lua_toboolean`: only nil, absence and false are falsy; no error is
ever raised. -/
def toBoolean : Slot → Bool
  | .absent => false
  | .nil => false
  | .boolean b => b
  | _ => true

/-- `LuaValueType<bool>` (`LuaType.h` lines 49-68). -/
def boolPush (b : Bool) : Slot := .boolean b

def boolGet (s : Slot) : Except LuaError Bool := .ok (toBoolean s)

/-- Note the source tests `lua_isnone`, not `lua_isnoneornil`: a nil
slot is coerced, not defaulted. -/
def boolOpt (s : Slot) (d : Bool) : Except LuaError Bool :=
  .ok (if s = .absent then d else toBoolean s)

/-- `LuaValueType<T, lua_Integer>` at `int` (`LuaType.h` lines 70-89). -/
def intPush (v : Int) : Slot := .integer (wrapInt 64 v)

def intGet (s : Slot) : Except LuaError Int := (checkInteger s).map (wrapInt 32)

def intOpt (s : Slot) (d : Int) : Except LuaError Int :=
  if isNoneOrNilS s then .ok d else (checkInteger s).map (wrapInt 32)

/-- `LuaValueType<T, lua_Integer>` at `long` (64-bit). -/
def longPush (v : Int) : Slot := .integer (wrapInt 64 v)

def longGet (s : Slot) : Except LuaError Int := (checkInteger s).map (wrapInt 64)

/-- `LuaValueType<std::string>` (`LuaType.h` lines 177-200):
`lua_pushlstring` with explicit length, `luaL_checklstring` with the
returned length, so embedded NUL bytes survive. -/
def stringPush (bytes : List Nat) : Slot := .str bytes

def stringGet (s : Slot) : Except LuaError (List Nat) := checkLString s

def stringOpt (s : Slot) (d : List Nat) : Except LuaError (List Nat) :=
  if isNoneOrNilS s then .ok d else checkLString s

/-- `LuaValueType<char>` (`LuaType.h` lines 154-175): the value is
pushed as a one-character C string (`strlen`-terminated, so `char 0`
pushes the empty string) and read back as byte 0 of the C string (the
NUL terminator when the string is empty). -/
def charPush (c : Nat) : Slot := .str (if c = 0 then [] else [c])

def charGet (s : Slot) : Except LuaError Nat :=
  (checkLString s).map (fun bytes => bytes.headD 0)

/-- `LuaValueType<lua_CFunction>` (`LuaType.h` lines 133-152):
`lua_tocfunction` yields a null pointer (`none`) on mismatch and never
raises; `opt` ignores its default. -/
def cfunctionPush (f : Nat) : Slot := .cfunction f

def cfunctionGet (s : Slot) : Except LuaError (Option Nat) :=
  .ok (match s with
    | .cfunction f => some f
    | _ => none)

def cfunctionOpt (s : Slot) (_d : Option Nat) : Except LuaError (Option Nat) :=
  cfunctionGet s

/-! ### The unsafe 64-bit mode (`LuaUnsafeInt64Type`, `LuaType.h` lines
305-342)

`static_cast<lua_Number>(value)` rounds the 64-bit integer to the
nearest IEEE-754 binary64 value; for integers that is round-to-nearest,
ties to even, at 53 significand bits, modelled exactly below. -/

/-- Bit length, by structural recursion on a 64-step budget (enough for
any 64-bit value). -/
def bitLenAux : Nat → Nat → Nat
  | 0, _ => 0
  | fuel + 1, n => if n = 0 then 0 else bitLenAux fuel (n / 2) + 1

def bitLen64 (n : Nat) : Nat := bitLenAux 64 n

/-- Round a natural number to 53 significand bits, ties to even. -/
def roundSig53 (n : Nat) : Nat :=
  if n ≤ 2 ^ 53 then n
  else
    let e := bitLen64 n - 53
    let q := n / 2 ^ e
    let r := n % 2 ^ e
    let half := 2 ^ (e - 1)
    if r < half then q * 2 ^ e
    else if half < r then (q + 1) * 2 ^ e
    else (if q % 2 = 0 then q else q + 1) * 2 ^ e

/-- `static_cast<lua_Number>` of a 64-bit integer. -/
def castToDouble (v : Int) : Int :=
  if v < 0 then -(roundSig53 v.natAbs : Int) else (roundSig53 v.natAbs : Int)

/-- `LuaUnsafeInt64Type::push`: the value is cast to a double; with
`LUAINTF_UNSAFE_INT64_CHECK` set, a round-trip verification raises on
precision loss, otherwise the rounded double is pushed silently. -/
def unsafeInt64Push (check : Bool) (v : Int) : Except LuaError Slot :=
  let f := castToDouble v
  if check ∧ v ≠ f then .error (.err "unsafe cast from 64-bit int")
  else .ok (.number f)

/-- `LuaUnsafeInt64Type::get`: `static_cast<ValueType>(luaL_checknumber)`
(exact for the integral in-range doubles modelled here). -/
def unsafeInt64Get (s : Slot) : Except LuaError Int := checkNumber s

def unsafeInt64Opt (s : Slot) (d : Int) : Except LuaError Int :=
  if isNoneOrNilS s then .ok d else checkNumber s

/-! ## The argument marshalling pipeline (`impl/CppArg.h`,
`CppBindMethodBase::call` in `impl/CppBindModule.h` lines 100-136 and
`CppBindClassMethodBase::call` in `impl/CppBindClass.h` lines 90-119) -/

/-- The compile-time traits of one parameter (`CppArgTraits`):
whether it consumes a stack slot (`IsInput`), whether absence-or-nil is
acceptable (`IsOptonal`, routed through `LuaType<T>::opt`), the default
substituted then, the conversion itself (`LuaType<T>::get`), and
whether the value is pushed back after the call (`IsOutput`). -/
structure ArgSpec where
  isInput : Bool
  isOptional : Bool
  conv : Slot → Except LuaError Slot
  dflt : Slot
  isOutput : Bool

/-- One-based stack access. -/
def slotAt (stack : List Slot) (idx : Nat) : Slot :=
  stack.getD (idx - 1) .absent

/-- `CppArgTupleInput::get`: convert the parameters in declaration
order; a parameter that consumes no slot (`IsInput = false`) leaves the
running index unchanged, all others advance it by one
(`index += CppArg<P0>::get(...)`). -/
def argTupleInput (stack : List Slot) : List ArgSpec → Nat → Except LuaError (List Slot)
  | [], _ => .ok []
  | a :: rest, idx =>
      if a.isInput then
        match (if a.isOptional then
                (if isNoneOrNilS (slotAt stack idx) then .ok a.dflt
                 else a.conv (slotAt stack idx))
               else a.conv (slotAt stack idx)) with
        | .error e => .error e
        | .ok v => (argTupleInput stack rest (idx + 1)).map (v :: ·)
      else
        (argTupleInput stack rest idx).map (a.dflt :: ·)

/-- `CppArgTupleOutput::push`: the held values of the output parameters,
in declaration order. -/
def argTupleOutput : List ArgSpec → List Slot → List Slot
  | a :: rest, v :: vrest =>
      (if a.isOutput then [v] else []) ++ argTupleOutput rest vrest
  | _, _ => []

/-- `CppBindMethodBase::call` / `CppBindClassMethodBase::call`: retrieve
the receiver (`recv` stands for the result of `CppObject::get<T>`; for
a free function it is trivially `.ok 0`), convert all arguments, invoke
the native callable (`CppInvokeMethod` is not among the given sources;
modelled from the spec, section 4.4: invoke the callable and push its
results), then push the output parameters.  The boolean records whether
the native callable ran. -/
def methodCall (recv : Except LuaError Nat) (specs : List ArgSpec)
    (stack : List Slot) (iarg : Nat)
    (fn : Nat → List Slot → Except LuaError (List Slot)) :
    Except LuaError (List Slot) × Bool :=
  match recv with
  | .error e => (.error e, false)
  | .ok obj =>
      match argTupleInput stack specs iarg with
      | .error e => (.error e, false)
      | .ok args =>
          match fn obj args with
          | .error e => (.error e, true)
          | .ok results => (.ok (results ++ argTupleOutput specs args), true)

/-- The ancestor relation between registration indices: `AncIdx regs k i`
holds when the `i`-th registered class is the `k`-th registered class
itself or is reached from it by following declared superclasses. -/
inductive AncIdx (regs : List RegSpec) : Nat → Nat → Prop where
  | refl (k : Nat) : AncIdx regs k k
  | step (k j i : Nat) (rk rj : RegSpec) :
      regs.get? k = some rk → regs.get? j = some rj →
      rk.superTok = some rj.tok → AncIdx regs j i → AncIdx regs k i

/-! ## A concrete two-class hierarchy exercising the registration and
retrieval theorems -/

/-- A base class (token 0) and one subclass (token 1). -/
def demoRegs : List RegSpec := [⟨0, "Base", none⟩, ⟨1, "Derived", some 0⟩]

def demoBuilt : Heap := buildAll demoRegs

/-- A native environment whose member getters report `gid + ptr`. -/
def demoEnv : NativeEnv := ⟨fun gid p => .num (gid + p), fun _ _ => .nil⟩

/-- The demo heap after allocating a mutable `Base` instance at native
pointer 5 (userdata id 0). -/
def demoAllocM : Heap := { demoBuilt with uds := [(0, ⟨5, 5⟩)], nextU := 1 }

/-- After allocating a const `Base` instance at native pointer 6. -/
def demoAllocC : Heap := { demoBuilt with uds := [(0, ⟨2, 6⟩)], nextU := 1 }

/-- After allocating a const `Base` instance at native pointer 0. -/
def demoAllocB : Heap := { demoBuilt with uds := [(0, ⟨2, 0⟩)], nextU := 1 }

/-- After allocating a mutable `Derived` instance at native pointer 7. -/
def demoAllocD : Heap := { demoBuilt with uds := [(0, ⟨13, 7⟩)], nextU := 1 }

/-- The demo heap after registering a member getter on `Base`. -/
def demoGetterHeap : Heap :=
  setMemberGetter demoBuilt (csId 0) "value" (.cfn (.memberGetter 0 0))

/-- The getter heap after allocating a mutable `Base` instance at
native pointer 5. -/
def demoAllocG1 : Heap :=
  { demoGetterHeap with uds := [(0, ⟨5, 5⟩)], nextU := 1 }

/-- ... and then a const `Base` instance at native pointer 6. -/
def demoAllocG2 : Heap :=
  { demoAllocG1 with uds := [(1, ⟨2, 6⟩), (0, ⟨5, 5⟩)], nextU := 2 }

/-! ## Theorems -/

theorem lookupField_setField (l : List (LV × LV)) (k k2 v : LV) :
    lookupField (setField l k v) k2 = if k = k2 then v else lookupField l k2 := by
  induction l with
  | nil => simp [setField, lookupField]
  | cons p rest ih =>
      obtain ⟨k0, v0⟩ := p
      by_cases h0 : k0 = k
      · subst h0
        simp only [setField, if_pos rfl, lookupField]
        by_cases h : k0 = k2 <;> simp [h]
      · simp only [setField, if_neg h0, lookupField]
        by_cases h : k0 = k2
        · have hk2 : ¬ k = k2 := fun hc => h0 (h.trans hc.symm)
          simp [h, hk2]
        · simp [h, ih]

theorem alookup_aset {α : Type} (l : List (Nat × α)) (i j : Nat) (a : α) :
    alookup (aset l i a) j = if i = j then some a else alookup l j := by
  induction l with
  | nil => simp [aset, alookup]
  | cons p rest ih =>
      obtain ⟨i0, a0⟩ := p
      by_cases h0 : i0 = i
      · subst h0
        simp only [aset, if_pos rfl, alookup]
        by_cases h : i0 = j <;> simp [h]
      · simp only [aset, if_neg h0, alookup]
        by_cases h : i0 = j
        · have hj : ¬ i = j := fun hc => h0 (h.trans hc.symm)
          simp [h, hj]
        · simp [h, ih]

theorem rawget_rawset (h : Heap) (i j : Nat) (k k2 v : LV) :
    (h.rawset i k v).rawget j k2 =
      if i = j ∧ k = k2 then v else h.rawget j k2 := by
  by_cases hj : i = j
  · subst hj
    simp only [Heap.rawset, Heap.rawget, Heap.table?, alookup_aset, if_pos rfl,
      true_and]
    by_cases hk : k = k2
    · simp [lookupField_setField, hk]
    · cases hl : alookup h.tables i <;>
        simp [hl, lookupField, lookupField_setField, hk]
  · simp [Heap.rawset, Heap.rawget, Heap.table?, alookup_aset, hj]

theorem table?_rawset (h : Heap) (i j : Nat) (k v : LV) :
    (h.rawset i k v).table? j =
      if i = j then
        some { fields := setField ((h.table? i).getD ⟨[], none⟩).fields k v,
               meta := ((h.table? i).getD ⟨[], none⟩).meta }
      else h.table? j := by
  simp [Heap.rawset, Heap.table?, alookup_aset]

theorem table?_setMeta (h : Heap) (i j target : Nat) :
    (h.setMeta i target).table? j =
      if i = j then
        some { fields := ((h.table? i).getD ⟨[], none⟩).fields,
               meta := some target }
      else h.table? j := by
  simp [Heap.setMeta, Heap.table?, alookup_aset]

theorem rawget_setMeta (h : Heap) (i j target : Nat) (k : LV) :
    (h.setMeta i target).rawget j k = h.rawget j k := by
  by_cases hj : i = j
  · subst hj
    simp only [Heap.rawget, table?_setMeta, if_pos rfl]
    cases hl : h.table? i <;> simp [hl, lookupField]
  · simp [Heap.rawget, table?_setMeta, hj]

theorem table?_newTable (h : Heap) (j : Nat) :
    (h.newTable).1.table? j =
      if h.nextT = j then some ⟨[], none⟩ else h.table? j := by
  simp [Heap.newTable, Heap.table?, alookup]

theorem rawget_newTable (h : Heap) (j : Nat) (k : LV) :
    (h.newTable).1.rawget j k =
      if h.nextT = j then .nil else h.rawget j k := by
  by_cases hj : h.nextT = j <;> simp [Heap.rawget, table?_newTable, hj, lookupField]

theorem uds_rawset (h : Heap) (i : Nat) (k v : LV) :
    (h.rawset i k v).uds = h.uds := rfl

theorem uds_setMeta (h : Heap) (i target : Nat) :
    (h.setMeta i target).uds = h.uds := rfl

theorem uds_newTable (h : Heap) :
    (h.newTable).1.uds = h.uds := rfl

theorem uds_refSet (h : Heap) (r k v : LV) : (h.refSet r k v).uds = h.uds := by
  simp only [Heap.refSet]
  cases r.asTable <;> simp [uds_rawset]

theorem nextT_rawset (h : Heap) (i : Nat) (k v : LV) :
    (h.rawset i k v).nextT = h.nextT := rfl

theorem nextT_setMeta (h : Heap) (i target : Nat) :
    (h.setMeta i target).nextT = h.nextT := rfl

theorem nextT_newTable (h : Heap) :
    (h.newTable).1.nextT = h.nextT + 1 := rfl

theorem snd_newTable (h : Heap) : (h.newTable).2 = h.nextT := rfl

/-! ## Facts about a fresh class registration

The eight tables allocated by a fresh `buildMetaTable` call are, in
allocation order starting at `n := h.nextT`: the const metatable `n`,
its getters `n + 1` and setters `n + 2`, the class metatable `n + 3`,
its setters `n + 4` (the getters table is shared with the const
metatable), the static metatable `n + 5`, its getters `n + 6` and
setters `n + 7`. -/

theorem bindClass_facts (h : Heap) (parent tok : Nat) (name : String)
    (hfresh : h.rawget parent (.str name) = .nil)
    (hp : parent < h.nextT) (hr : registryId < h.nextT) :
    ((bindClass h parent tok name).1.rawget registryId (.lightud (classID tok)) =
        .table (h.nextT + 3) ∧
     (bindClass h parent tok name).1.rawget registryId (.lightud (constID tok)) =
        .table h.nextT ∧
     (bindClass h parent tok name).1.rawget registryId (.lightud (staticID tok)) =
        .table (h.nextT + 5) ∧
     (bindClass h parent tok name).1.rawget parent (.str name) = .table (h.nextT + 5)) ∧
    ((bindClass h parent tok name).1.rawget (h.nextT + 3) (.str "___getters") =
        .table (h.nextT + 1) ∧
     (bindClass h parent tok name).1.rawget (h.nextT + 3) (.str "___setters") =
        .table (h.nextT + 4) ∧
     (bindClass h parent tok name).1.rawget (h.nextT + 3) (.str "___const") =
        .table h.nextT ∧
     (bindClass h parent tok name).1.rawget (h.nextT + 3) (.lightud signaturePtr) =
        .lightud (classID tok) ∧
     (bindClass h parent tok name).1.rawget (h.nextT + 3) (.str "__gc") =
        .cfn (.destructor tok false) ∧
     (bindClass h parent tok name).1.rawget (h.nextT + 3) (.str "___super") = .nil) ∧
    ((bindClass h parent tok name).1.rawget h.nextT (.str "___getters") =
        .table (h.nextT + 1) ∧
     (bindClass h parent tok name).1.rawget h.nextT (.str "___setters") =
        .table (h.nextT + 2) ∧
     (bindClass h parent tok name).1.rawget h.nextT (.str "___const") =
        .table h.nextT ∧
     (bindClass h parent tok name).1.rawget h.nextT (.lightud signaturePtr) =
        .lightud (constID tok) ∧
     (bindClass h parent tok name).1.rawget h.nextT (.str "__gc") =
        .cfn (.destructor tok true) ∧
     (bindClass h parent tok name).1.rawget h.nextT (.str "___super") = .nil) ∧
    ((bindClass h parent tok name).1.rawget (h.nextT + 5) (.str "___class") =
        .table (h.nextT + 3) ∧
     (bindClass h parent tok name).1.rawget (h.nextT + 5) (.str "___const") =
        .table h.nextT ∧
     (bindClass h parent tok name).1.rawget (h.nextT + 5) (.str "___getters") =
        .table (h.nextT + 6) ∧
     (bindClass h parent tok name).1.rawget (h.nextT + 5) (.str "___setters") =
        .table (h.nextT + 7) ∧
     (bindClass h parent tok name).1.rawget (h.nextT + 5) (.str "___super") = .nil) ∧
    ((bindClass h parent tok name).1.nextT = h.nextT + 8 ∧
     (bindClass h parent tok name).1.uds = h.uds) := by
  have hpc0 : (parent = h.nextT) = False := by simp; omega
  have hpc : ∀ c : Nat, (parent = h.nextT + c) = False := by intro c; simp; omega
  have hrc0 : (registryId = h.nextT) = False := by simp; omega
  have hrc : ∀ c : Nat, (registryId = h.nextT + c) = False := by intro c; simp; omega
  have hcr0 : (h.nextT = registryId) = False := by simp; omega
  have hcr : ∀ c : Nat, (h.nextT + c = registryId) = False := by intro c; simp; omega
  have hcp0 : (h.nextT = parent) = False := by simp; omega
  have hcp : ∀ c : Nat, (h.nextT + c = parent) = False := by intro c; simp; omega
  simp [bindClass, buildMetaTable3, hfresh, Heap.refGet, Heap.refSet, LV.asTable,
    rawget_rawset, rawget_setMeta, rawget_newTable, nextT_rawset, nextT_setMeta,
    nextT_newTable, snd_newTable, uds_rawset, uds_setMeta, uds_newTable,
    hpc0, hpc, hrc0, hrc, hcr0, hcr, hcp0, hcp,
    Nat.add_assoc, classID, staticID, constID, signaturePtr]

/-- Keys a fresh registration writes into the class and const
metatables.  Any other string key reads as nil directly after a fresh
registration. -/
theorem bindClass_direct_nil (h : Heap) (parent tok : Nat) (name : String)
    (hfresh : h.rawget parent (.str name) = .nil)
    (hp : parent < h.nextT) (hr : registryId < h.nextT) (s : String)
    (h1 : s ≠ "__index") (h2 : s ≠ "__newindex") (h3 : s ≠ "___getters")
    (h4 : s ≠ "___setters") (h5 : s ≠ "___type") (h6 : s ≠ "___const")
    (h7 : s ≠ "__gc") (h8 : s ≠ "___super") :
    (bindClass h parent tok name).1.rawget (h.nextT + 3) (.str s) = .nil ∧
    (bindClass h parent tok name).1.rawget h.nextT (.str s) = .nil := by
  have hpc0 : (parent = h.nextT) = False := by simp; omega
  have hpc : ∀ c : Nat, (parent = h.nextT + c) = False := by intro c; simp; omega
  have hrc0 : (registryId = h.nextT) = False := by simp; omega
  have hrc : ∀ c : Nat, (registryId = h.nextT + c) = False := by intro c; simp; omega
  have e1 : ("__index" = s) = False := eq_false (Ne.symm h1)
  have e2 : ("__newindex" = s) = False := eq_false (Ne.symm h2)
  have e3 : ("___getters" = s) = False := eq_false (Ne.symm h3)
  have e4 : ("___setters" = s) = False := eq_false (Ne.symm h4)
  have e5 : ("___type" = s) = False := eq_false (Ne.symm h5)
  have e6 : ("___const" = s) = False := eq_false (Ne.symm h6)
  have e7 : ("__gc" = s) = False := eq_false (Ne.symm h7)
  have e8 : ("___super" = s) = False := eq_false (Ne.symm h8)
  simp [bindClass, buildMetaTable3, hfresh, Heap.refGet, Heap.refSet, LV.asTable,
    rawget_rawset, rawget_setMeta, rawget_newTable, nextT_rawset, nextT_setMeta,
    nextT_newTable, snd_newTable, hpc0, hpc, hrc0, hrc,
    e1, e2, e3, e4, e5, e6, e7, e8, Nat.add_assoc]

/-- Tables other than the parent and the registry that already existed
are untouched by a registration. -/
theorem bindClass_table_frame (h : Heap) (parent tok : Nat) (name : String)
    (hfresh : h.rawget parent (.str name) = .nil)
    (hp : parent < h.nextT) (hr : registryId < h.nextT)
    (j : Nat) (hj : j < h.nextT) (hjp : j ≠ parent) (hjr : j ≠ registryId) :
    (bindClass h parent tok name).1.table? j = h.table? j := by
  have hpj : (parent = j) = False := eq_false (Ne.symm hjp)
  have hrj : (registryId = j) = False := eq_false (Ne.symm hjr)
  have hcj0 : (h.nextT = j) = False := by simp; omega
  have hcj : ∀ c : Nat, (h.nextT + c = j) = False := by intro c; simp; omega
  have hpc0 : (parent = h.nextT) = False := by simp; omega
  have hpc : ∀ c : Nat, (parent = h.nextT + c) = False := by intro c; simp; omega
  have hrc0 : (registryId = h.nextT) = False := by simp; omega
  have hrc : ∀ c : Nat, (registryId = h.nextT + c) = False := by intro c; simp; omega
  simp [bindClass, buildMetaTable3, hfresh, Heap.refGet, Heap.refSet, LV.asTable,
    rawget_rawset, rawget_setMeta, rawget_newTable, table?_rawset, table?_setMeta,
    table?_newTable, nextT_rawset, nextT_setMeta, nextT_newTable, snd_newTable,
    hpj, hrj, hcj0, hcj, hpc0, hpc, hrc0, hrc, Nat.add_assoc]

theorem bindClass_rawget_frame (h : Heap) (parent tok : Nat) (name : String)
    (hfresh : h.rawget parent (.str name) = .nil)
    (hp : parent < h.nextT) (hr : registryId < h.nextT)
    (j : Nat) (hj : j < h.nextT) (hjp : j ≠ parent) (hjr : j ≠ registryId) (k : LV) :
    (bindClass h parent tok name).1.rawget j k = h.rawget j k := by
  simp [Heap.rawget, bindClass_table_frame h parent tok name hfresh hp hr j hj hjp hjr]

/-- Registry entries other than the three new type keys are untouched. -/
theorem bindClass_registry_frame (h : Heap) (parent tok : Nat) (name : String)
    (hfresh : h.rawget parent (.str name) = .nil)
    (hp : parent < h.nextT) (hr : registryId < h.nextT) (hpr : parent ≠ registryId)
    (k : LV) (k1 : k ≠ .lightud (classID tok)) (k2 : k ≠ .lightud (constID tok))
    (k3 : k ≠ .lightud (staticID tok)) :
    (bindClass h parent tok name).1.rawget registryId k = h.rawget registryId k := by
  have hcr0 : (h.nextT = registryId) = False := by simp; omega
  have hcr : ∀ c : Nat, (h.nextT + c = registryId) = False := by intro c; simp; omega
  have hprf : (parent = registryId) = False := eq_false hpr
  have hpc0 : (parent = h.nextT) = False := by simp; omega
  have hpc : ∀ c : Nat, (parent = h.nextT + c) = False := by intro c; simp; omega
  have hrc0 : (registryId = h.nextT) = False := by simp; omega
  have hrc : ∀ c : Nat, (registryId = h.nextT + c) = False := by intro c; simp; omega
  have e1 : (LV.lightud (classID tok) = k) = False := eq_false (Ne.symm k1)
  have e2 : (LV.lightud (constID tok) = k) = False := eq_false (Ne.symm k2)
  have e3 : (LV.lightud (staticID tok) = k) = False := eq_false (Ne.symm k3)
  simp [bindClass, buildMetaTable3, hfresh, Heap.refGet, Heap.refSet, LV.asTable,
    rawget_rawset, rawget_setMeta, rawget_newTable, nextT_rawset, nextT_setMeta,
    nextT_newTable, snd_newTable, hcr0, hcr, hprf, hpc0, hpc, hrc0, hrc,
    e1, e2, e3, Nat.add_assoc]

/-- Parent-table entries other than the new class name are untouched. -/
theorem bindClass_parent_frame (h : Heap) (parent tok : Nat) (name : String)
    (hfresh : h.rawget parent (.str name) = .nil)
    (hp : parent < h.nextT) (hr : registryId < h.nextT) (hpr : parent ≠ registryId)
    (k : LV) (hk : k ≠ .str name) :
    (bindClass h parent tok name).1.rawget parent k = h.rawget parent k := by
  have hcp0 : (h.nextT = parent) = False := by simp; omega
  have hcp : ∀ c : Nat, (h.nextT + c = parent) = False := by intro c; simp; omega
  have hrp : (registryId = parent) = False := eq_false (Ne.symm hpr)
  have hpc0 : (parent = h.nextT) = False := by simp; omega
  have hpc : ∀ c : Nat, (parent = h.nextT + c) = False := by intro c; simp; omega
  have hrc0 : (registryId = h.nextT) = False := by simp; omega
  have hrc : ∀ c : Nat, (registryId = h.nextT + c) = False := by intro c; simp; omega
  have e1 : (LV.str name = k) = False := eq_false (Ne.symm hk)
  simp [bindClass, buildMetaTable3, hfresh, Heap.refGet, Heap.refSet, LV.asTable,
    rawget_rawset, rawget_setMeta, rawget_newTable, nextT_rawset, nextT_setMeta,
    nextT_newTable, snd_newTable, hcp0, hcp, hrp, hpc0, hpc, hrc0, hrc, e1,
    Nat.add_assoc]

/-- Facts about a fresh `extendClass` registration.  The superclass is
an already-registered class whose static metatable is `scs`, with class
metatable `scz` and const metatable `scc`. -/
theorem extendClass_facts (h : Heap) (parent tok superTok scs scz scc : Nat)
    (name : String)
    (hfresh : h.rawget parent (.str name) = .nil)
    (hp : parent < h.nextT) (hr : registryId < h.nextT)
    (hts : tok ≠ superTok)
    (hsup : h.rawget registryId (.lightud (staticID superTok)) = .table scs)
    (hcls : h.rawget scs (.str "___class") = .table scz)
    (hcst : h.rawget scs (.str "___const") = .table scc)
    (hscs : scs < h.nextT) (hscsp : scs ≠ parent) (hscsr : scs ≠ registryId) :
    ((extendClass h parent tok name superTok).1.rawget registryId
        (.lightud (classID tok)) = .table (h.nextT + 3) ∧
     (extendClass h parent tok name superTok).1.rawget registryId
        (.lightud (constID tok)) = .table h.nextT ∧
     (extendClass h parent tok name superTok).1.rawget registryId
        (.lightud (staticID tok)) = .table (h.nextT + 5) ∧
     (extendClass h parent tok name superTok).1.rawget parent (.str name) =
        .table (h.nextT + 5)) ∧
    ((extendClass h parent tok name superTok).1.rawget (h.nextT + 3)
        (.str "___getters") = .table (h.nextT + 1) ∧
     (extendClass h parent tok name superTok).1.rawget (h.nextT + 3)
        (.str "___setters") = .table (h.nextT + 4) ∧
     (extendClass h parent tok name superTok).1.rawget (h.nextT + 3)
        (.str "___const") = .table h.nextT ∧
     (extendClass h parent tok name superTok).1.rawget (h.nextT + 3)
        (.lightud signaturePtr) = .lightud (classID tok) ∧
     (extendClass h parent tok name superTok).1.rawget (h.nextT + 3)
        (.str "__gc") = .cfn (.destructor tok false) ∧
     (extendClass h parent tok name superTok).1.rawget (h.nextT + 3)
        (.str "___super") = .table scz) ∧
    ((extendClass h parent tok name superTok).1.rawget h.nextT
        (.str "___getters") = .table (h.nextT + 1) ∧
     (extendClass h parent tok name superTok).1.rawget h.nextT
        (.str "___setters") = .table (h.nextT + 2) ∧
     (extendClass h parent tok name superTok).1.rawget h.nextT
        (.str "___const") = .table h.nextT ∧
     (extendClass h parent tok name superTok).1.rawget h.nextT
        (.lightud signaturePtr) = .lightud (constID tok) ∧
     (extendClass h parent tok name superTok).1.rawget h.nextT
        (.str "__gc") = .cfn (.destructor tok true) ∧
     (extendClass h parent tok name superTok).1.rawget h.nextT
        (.str "___super") = .table scc) ∧
    ((extendClass h parent tok name superTok).1.rawget (h.nextT + 5)
        (.str "___class") = .table (h.nextT + 3) ∧
     (extendClass h parent tok name superTok).1.rawget (h.nextT + 5)
        (.str "___const") = .table h.nextT ∧
     (extendClass h parent tok name superTok).1.rawget (h.nextT + 5)
        (.str "___getters") = .table (h.nextT + 6) ∧
     (extendClass h parent tok name superTok).1.rawget (h.nextT + 5)
        (.str "___setters") = .table (h.nextT + 7) ∧
     (extendClass h parent tok name superTok).1.rawget (h.nextT + 5)
        (.str "___super") = .table scs) ∧
    ((extendClass h parent tok name superTok).1.nextT = h.nextT + 8 ∧
     (extendClass h parent tok name superTok).1.uds = h.uds) := by
  have hpc0 : (parent = h.nextT) = False := by simp; omega
  have hpc : ∀ c : Nat, (parent = h.nextT + c) = False := by intro c; simp; omega
  have hrc0 : (registryId = h.nextT) = False := by simp; omega
  have hrc : ∀ c : Nat, (registryId = h.nextT + c) = False := by intro c; simp; omega
  have hcr0 : (h.nextT = registryId) = False := by simp; omega
  have hcr : ∀ c : Nat, (h.nextT + c = registryId) = False := by intro c; simp; omega
  have hcp0 : (h.nextT = parent) = False := by simp; omega
  have hcp : ∀ c : Nat, (h.nextT + c = parent) = False := by intro c; simp; omega
  have hsc0 : (h.nextT = scs) = False := by simp; omega
  have hsc : ∀ c : Nat, (h.nextT + c = scs) = False := by intro c; simp; omega
  have hpsc : (parent = scs) = False := eq_false (Ne.symm hscsp)
  have hrsc : (registryId = scs) = False := eq_false (Ne.symm hscsr)
  have f1 : (3 * tok + 1 = 3 * superTok + 2) = False := by simp; omega
  have f2 : (3 * tok + 3 = 3 * superTok + 2) = False := by simp; omega
  have f3 : (3 * tok + 2 = 3 * superTok + 2) = False := by simp; omega
  simp only [staticID] at hsup
  simp [extendClass, buildMetaTable4, buildMetaTable3, hfresh, Heap.refGet,
    Heap.refSet, LV.asTable, rawget_rawset, rawget_setMeta, rawget_newTable,
    nextT_rawset, nextT_setMeta, nextT_newTable, snd_newTable, uds_rawset,
    uds_setMeta, uds_newTable, hpc0, hpc, hrc0, hrc, hcr0, hcr, hcp0, hcp,
    hsc0, hsc, hpsc, hrsc, f1, f2, f3, hsup, hcls, hcst,
    Nat.add_assoc, classID, staticID, constID, signaturePtr]

theorem extendClass_direct_nil (h : Heap) (parent tok superTok scs : Nat)
    (name : String)
    (hfresh : h.rawget parent (.str name) = .nil)
    (hp : parent < h.nextT) (hr : registryId < h.nextT)
    (hts : tok ≠ superTok)
    (hsup : h.rawget registryId (.lightud (staticID superTok)) = .table scs)
    (hscs : scs < h.nextT) (hscsp : scs ≠ parent) (hscsr : scs ≠ registryId)
    (s : String)
    (h1 : s ≠ "__index") (h2 : s ≠ "__newindex") (h3 : s ≠ "___getters")
    (h4 : s ≠ "___setters") (h5 : s ≠ "___type") (h6 : s ≠ "___const")
    (h7 : s ≠ "__gc") (h8 : s ≠ "___super") :
    (extendClass h parent tok name superTok).1.rawget (h.nextT + 3) (.str s) = .nil ∧
    (extendClass h parent tok name superTok).1.rawget h.nextT (.str s) = .nil := by
  have hpc0 : (parent = h.nextT) = False := by simp; omega
  have hpc : ∀ c : Nat, (parent = h.nextT + c) = False := by intro c; simp; omega
  have hrc0 : (registryId = h.nextT) = False := by simp; omega
  have hrc : ∀ c : Nat, (registryId = h.nextT + c) = False := by intro c; simp; omega
  have hsc0 : (h.nextT = scs) = False := by simp; omega
  have hsc : ∀ c : Nat, (h.nextT + c = scs) = False := by intro c; simp; omega
  have hpsc : (parent = scs) = False := eq_false (Ne.symm hscsp)
  have hrsc : (registryId = scs) = False := eq_false (Ne.symm hscsr)
  have f1 : (3 * tok + 1 = 3 * superTok + 2) = False := by simp; omega
  have f2 : (3 * tok + 3 = 3 * superTok + 2) = False := by simp; omega
  have f3 : (3 * tok + 2 = 3 * superTok + 2) = False := by simp; omega
  have e1 : ("__index" = s) = False := eq_false (Ne.symm h1)
  have e2 : ("__newindex" = s) = False := eq_false (Ne.symm h2)
  have e3 : ("___getters" = s) = False := eq_false (Ne.symm h3)
  have e4 : ("___setters" = s) = False := eq_false (Ne.symm h4)
  have e5 : ("___type" = s) = False := eq_false (Ne.symm h5)
  have e6 : ("___const" = s) = False := eq_false (Ne.symm h6)
  have e7 : ("__gc" = s) = False := eq_false (Ne.symm h7)
  have e8 : ("___super" = s) = False := eq_false (Ne.symm h8)
  simp only [staticID] at hsup
  simp [extendClass, buildMetaTable4, buildMetaTable3, hfresh, Heap.refGet,
    Heap.refSet, LV.asTable, rawget_rawset, rawget_setMeta, rawget_newTable,
    nextT_rawset, nextT_setMeta, nextT_newTable, snd_newTable,
    hpc0, hpc, hrc0, hrc, hsc0, hsc, hpsc, hrsc, f1, f2, f3, hsup,
    e1, e2, e3, e4, e5, e6, e7, e8,
    Nat.add_assoc, classID, staticID, constID, signaturePtr]

theorem extendClass_table_frame (h : Heap) (parent tok superTok scs : Nat)
    (name : String)
    (hfresh : h.rawget parent (.str name) = .nil)
    (hp : parent < h.nextT) (hr : registryId < h.nextT)
    (hts : tok ≠ superTok)
    (hsup : h.rawget registryId (.lightud (staticID superTok)) = .table scs)
    (hscs : scs < h.nextT) (hscsp : scs ≠ parent) (hscsr : scs ≠ registryId)
    (j : Nat) (hj : j < h.nextT) (hjp : j ≠ parent) (hjr : j ≠ registryId) :
    (extendClass h parent tok name superTok).1.table? j = h.table? j := by
  have hpj : (parent = j) = False := eq_false (Ne.symm hjp)
  have hrj : (registryId = j) = False := eq_false (Ne.symm hjr)
  have hcj0 : (h.nextT = j) = False := by simp; omega
  have hcj : ∀ c : Nat, (h.nextT + c = j) = False := by intro c; simp; omega
  have hpc0 : (parent = h.nextT) = False := by simp; omega
  have hpc : ∀ c : Nat, (parent = h.nextT + c) = False := by intro c; simp; omega
  have hrc0 : (registryId = h.nextT) = False := by simp; omega
  have hrc : ∀ c : Nat, (registryId = h.nextT + c) = False := by intro c; simp; omega
  have hsc0 : (h.nextT = scs) = False := by simp; omega
  have hsc : ∀ c : Nat, (h.nextT + c = scs) = False := by intro c; simp; omega
  have hpsc : (parent = scs) = False := eq_false (Ne.symm hscsp)
  have hrsc : (registryId = scs) = False := eq_false (Ne.symm hscsr)
  have f1 : (3 * tok + 1 = 3 * superTok + 2) = False := by simp; omega
  have f2 : (3 * tok + 3 = 3 * superTok + 2) = False := by simp; omega
  have f3 : (3 * tok + 2 = 3 * superTok + 2) = False := by simp; omega
  simp only [staticID] at hsup
  simp [extendClass, buildMetaTable4, buildMetaTable3, hfresh, Heap.refGet,
    Heap.refSet, LV.asTable, rawget_rawset, rawget_setMeta, rawget_newTable,
    table?_rawset, table?_setMeta, table?_newTable, nextT_rawset, nextT_setMeta,
    nextT_newTable, snd_newTable, hpj, hrj, hcj0, hcj, hpc0, hpc, hrc0, hrc,
    hsc0, hsc, hpsc, hrsc, f1, f2, f3, hsup,
    Nat.add_assoc, classID, staticID, constID, signaturePtr]

theorem extendClass_rawget_frame (h : Heap) (parent tok superTok scs : Nat)
    (name : String)
    (hfresh : h.rawget parent (.str name) = .nil)
    (hp : parent < h.nextT) (hr : registryId < h.nextT)
    (hts : tok ≠ superTok)
    (hsup : h.rawget registryId (.lightud (staticID superTok)) = .table scs)
    (hscs : scs < h.nextT) (hscsp : scs ≠ parent) (hscsr : scs ≠ registryId)
    (j : Nat) (hj : j < h.nextT) (hjp : j ≠ parent) (hjr : j ≠ registryId) (k : LV) :
    (extendClass h parent tok name superTok).1.rawget j k = h.rawget j k := by
  simp [Heap.rawget, extendClass_table_frame h parent tok superTok scs name hfresh
    hp hr hts hsup hscs hscsp hscsr j hj hjp hjr]

theorem extendClass_registry_frame (h : Heap) (parent tok superTok scs : Nat)
    (name : String)
    (hfresh : h.rawget parent (.str name) = .nil)
    (hp : parent < h.nextT) (hr : registryId < h.nextT) (hpr : parent ≠ registryId)
    (hts : tok ≠ superTok)
    (hsup : h.rawget registryId (.lightud (staticID superTok)) = .table scs)
    (hscs : scs < h.nextT) (hscsp : scs ≠ parent) (hscsr : scs ≠ registryId)
    (k : LV) (k1 : k ≠ .lightud (classID tok)) (k2 : k ≠ .lightud (constID tok))
    (k3 : k ≠ .lightud (staticID tok)) :
    (extendClass h parent tok name superTok).1.rawget registryId k =
      h.rawget registryId k := by
  have hcr0 : (h.nextT = registryId) = False := by simp; omega
  have hcr : ∀ c : Nat, (h.nextT + c = registryId) = False := by intro c; simp; omega
  have hprf : (parent = registryId) = False := eq_false hpr
  have hpc0 : (parent = h.nextT) = False := by simp; omega
  have hpc : ∀ c : Nat, (parent = h.nextT + c) = False := by intro c; simp; omega
  have hrc0 : (registryId = h.nextT) = False := by simp; omega
  have hrc : ∀ c : Nat, (registryId = h.nextT + c) = False := by intro c; simp; omega
  have hsc0 : (h.nextT = scs) = False := by simp; omega
  have hsc : ∀ c : Nat, (h.nextT + c = scs) = False := by intro c; simp; omega
  have hpsc : (parent = scs) = False := eq_false (Ne.symm hscsp)
  have hrsc : (registryId = scs) = False := eq_false (Ne.symm hscsr)
  have f1 : (3 * tok + 1 = 3 * superTok + 2) = False := by simp; omega
  have f2 : (3 * tok + 3 = 3 * superTok + 2) = False := by simp; omega
  have f3 : (3 * tok + 2 = 3 * superTok + 2) = False := by simp; omega
  have e1 : (LV.lightud (classID tok) = k) = False := eq_false (Ne.symm k1)
  have e2 : (LV.lightud (constID tok) = k) = False := eq_false (Ne.symm k2)
  have e3 : (LV.lightud (staticID tok) = k) = False := eq_false (Ne.symm k3)
  simp only [classID, staticID, constID] at e1 e2 e3
  simp only [staticID] at hsup
  simp [extendClass, buildMetaTable4, buildMetaTable3, hfresh, Heap.refGet,
    Heap.refSet, LV.asTable, rawget_rawset, rawget_setMeta, rawget_newTable,
    nextT_rawset, nextT_setMeta, nextT_newTable, snd_newTable,
    hcr0, hcr, hprf, hpc0, hpc, hrc0, hrc, hsc0, hsc, hpsc, hrsc, f1, f2, f3,
    hsup, e1, e2, e3, Nat.add_assoc, classID, staticID, constID, signaturePtr]

theorem extendClass_parent_frame (h : Heap) (parent tok superTok scs : Nat)
    (name : String)
    (hfresh : h.rawget parent (.str name) = .nil)
    (hp : parent < h.nextT) (hr : registryId < h.nextT) (hpr : parent ≠ registryId)
    (hts : tok ≠ superTok)
    (hsup : h.rawget registryId (.lightud (staticID superTok)) = .table scs)
    (hscs : scs < h.nextT) (hscsp : scs ≠ parent) (hscsr : scs ≠ registryId)
    (k : LV) (hk : k ≠ .str name) :
    (extendClass h parent tok name superTok).1.rawget parent k =
      h.rawget parent k := by
  have hcp0 : (h.nextT = parent) = False := by simp; omega
  have hcp : ∀ c : Nat, (h.nextT + c = parent) = False := by intro c; simp; omega
  have hrp : (registryId = parent) = False := eq_false (Ne.symm hpr)
  have hpc0 : (parent = h.nextT) = False := by simp; omega
  have hpc : ∀ c : Nat, (parent = h.nextT + c) = False := by intro c; simp; omega
  have hrc0 : (registryId = h.nextT) = False := by simp; omega
  have hrc : ∀ c : Nat, (registryId = h.nextT + c) = False := by intro c; simp; omega
  have hsc0 : (h.nextT = scs) = False := by simp; omega
  have hsc : ∀ c : Nat, (h.nextT + c = scs) = False := by intro c; simp; omega
  have hpsc : (parent = scs) = False := eq_false (Ne.symm hscsp)
  have hrsc : (registryId = scs) = False := eq_false (Ne.symm hscsr)
  have f1 : (3 * tok + 1 = 3 * superTok + 2) = False := by simp; omega
  have f2 : (3 * tok + 3 = 3 * superTok + 2) = False := by simp; omega
  have f3 : (3 * tok + 2 = 3 * superTok + 2) = False := by simp; omega
  have e1 : (LV.str name = k) = False := eq_false (Ne.symm hk)
  simp only [staticID] at hsup
  simp [extendClass, buildMetaTable4, buildMetaTable3, hfresh, Heap.refGet,
    Heap.refSet, LV.asTable, rawget_rawset, rawget_setMeta, rawget_newTable,
    nextT_rawset, nextT_setMeta, nextT_newTable, snd_newTable,
    hcp0, hcp, hrp, hpc0, hpc, hrc0, hrc, hsc0, hsc, hpsc, hrsc, f1, f2, f3,
    hsup, e1, Nat.add_assoc, classID, staticID, constID, signaturePtr]

/-- The per-class facts survive any heap change that does not touch the
class's own tables, its registry entries and its module entry, and any
extension of the registration list that keeps the first `k + 1`
entries. -/
theorem classFacts_preserved (regs1 regs2 : List RegSpec) (h g : Heap)
    (k : Nat) (r : RegSpec) (cf : ClassFacts regs1 h k r)
    (hget : ∀ j, j ≤ k → regs2.get? j = regs1.get? j)
    (hraw : ∀ j, (j = czId k ∨ j = ccId k ∨ j = csId k) → ∀ key : LV,
      g.rawget j key = h.rawget j key)
    (hreg : ∀ p, (p = classID r.tok ∨ p = constID r.tok ∨ p = staticID r.tok) →
      g.rawget registryId (.lightud p) = h.rawget registryId (.lightud p))
    (hmod : g.rawget moduleId (.str r.name) = h.rawget moduleId (.str r.name)) :
    ClassFacts regs2 g k r := by
  have hcz := hraw (czId k) (Or.inl rfl)
  have hcc := hraw (ccId k) (Or.inr (Or.inl rfl))
  have hcs := hraw (csId k) (Or.inr (Or.inr rfl))
  refine ⟨?_, ?_, ?_, ?_, ?_, ?_, ?_, ?_, ?_, ?_, ?_, ?_, ?_, ?_, ?_, ?_, ?_, ?_, ?_⟩
  · rw [hreg _ (Or.inl rfl)]; exact cf.regClazz
  · rw [hreg _ (Or.inr (Or.inl rfl))]; exact cf.regConst
  · rw [hreg _ (Or.inr (Or.inr rfl))]; exact cf.regStatic
  · rw [hmod]; exact cf.moduleEntry
  · rw [hcz]; exact cf.czGetters
  · rw [hcz]; exact cf.czSetters
  · rw [hcz]; exact cf.czConst
  · rw [hcz]; exact cf.czSig
  · rw [hcz]; exact cf.czGc
  · rw [hcc]; exact cf.ccGetters
  · rw [hcc]; exact cf.ccSetters
  · rw [hcc]; exact cf.ccConst
  · rw [hcc]; exact cf.ccSig
  · rw [hcc]; exact cf.ccGc
  · rw [hcs]; exact cf.csClass
  · rw [hcs]; exact cf.csConst
  · intro s s1 s2 s3 s4 s5 s6 s7 s8
    rw [hcz]; exact cf.czDirect s s1 s2 s3 s4 s5 s6 s7 s8
  · intro s s1 s2 s3 s4 s5 s6 s7 s8
    rw [hcc]; exact cf.ccDirect s s1 s2 s3 s4 s5 s6 s7 s8
  · have hs := cf.superF
    cases hst : r.superTok with
    | none =>
        rw [hst] at hs
        exact ⟨by rw [hcz]; exact hs.1, by rw [hcc]; exact hs.2⟩
    | some st =>
        rw [hst] at hs
        obtain ⟨j, hj, ⟨rj, hrj, hrjt⟩, hczs, hccs⟩ := hs
        exact ⟨j, hj, ⟨rj, by rw [hget j (Nat.le_of_lt (hj.trans_le (Nat.le_refl k)))]; exact hrj, hrjt⟩,
          by rw [hcz]; exact hczs, by rw [hcc]; exact hccs⟩

theorem classID_inj {a b : Nat} (h : classID a = classID b) : a = b := by
  simp [classID] at h; omega

theorem classID_ne_constID (a b : Nat) : classID a ≠ constID b := by
  simp [classID, constID]; omega

theorem classID_ne_staticID (a b : Nat) : classID a ≠ staticID b := by
  simp [classID, staticID]; omega

theorem constID_inj {a b : Nat} (h : constID a = constID b) : a = b := by
  simp [constID] at h; omega

theorem constID_ne_staticID (a b : Nat) : constID a ≠ staticID b := by
  simp [constID, staticID]; omega

theorem staticID_inj {a b : Nat} (h : staticID a = staticID b) : a = b := by
  simp [staticID] at h; omega

/-- The heap built from a wellformed registration list satisfies the
invariant. -/
theorem buildAll_inv (regs : List RegSpec) (hwf : RegsWF regs) :
    BuiltInv regs (buildAll regs) := by
  induction regs using List.reverseRecOn with
  | nil =>
      refine ⟨rfl, rfl, ?_, ?_, ?_⟩
      · intro s _; rfl
      · intro p _; rfl
      · intro k rk hk; simp at hk
  | append_singleton rs r ih =>
      obtain ⟨htok, hname, hsupwf⟩ := hwf
      rw [List.map_append] at htok hname
      have htokd := List.nodup_append.mp htok
      have hnamed := List.nodup_append.mp hname
      have htok' : (rs.map RegSpec.tok).Nodup := htokd.1
      have hname' : (rs.map RegSpec.name).Nodup := hnamed.1
      have htoknew : ∀ r' ∈ rs, r'.tok ≠ r.tok := by
        intro r' hr' he
        exact htokd.2.2 (List.mem_map_of_mem RegSpec.tok hr') (by simp [he])
      have hnamenew : ∀ r' ∈ rs, r'.name ≠ r.name := by
        intro r' hr' he
        exact hnamed.2.2 (List.mem_map_of_mem RegSpec.name hr') (by simp [he])
      have hsup' : ∀ k, k < rs.length → ∀ r0, rs.get? k = some r0 →
          ∀ st, r0.superTok = some st →
          ∃ j, j < k ∧ ∃ rj, rs.get? j = some rj ∧ rj.tok = st := by
        intro k hk r0 hr0 st hst
        have hk2 : k < (rs ++ [r]).length := by simp; omega
        have hr0' : (rs ++ [r]).get? k = some r0 := by
          rw [List.get?_append hk]; exact hr0
        obtain ⟨j, hj, rj, hrj, hrjt⟩ := hsupwf k hk2 r0 hr0' st hst
        exact ⟨j, hj, rj, by rwa [List.get?_append (hj.trans hk)] at hrj, hrjt⟩
      have ihh := ih ⟨htok', hname', hsup'⟩
      have hb : buildAll (rs ++ [r]) = registerClass (buildAll rs) r := by
        simp [buildAll, List.foldl_append]
      rw [hb]
      have hnext : (buildAll rs).nextT = 2 + 8 * rs.length := ihh.nextTEq
      have hfresh : (buildAll rs).rawget moduleId (.str r.name) = .nil :=
        ihh.moduleFree r.name (fun r' h' => hnamenew r' h')
      have hp : moduleId < (buildAll rs).nextT := by
        rw [hnext]; simp [moduleId]; omega
      have hr0 : registryId < (buildAll rs).nextT := by
        rw [hnext]; simp [registryId]
      have hpr : moduleId ≠ registryId := by simp [moduleId, registryId]
      cases hcase : r.superTok with
      | none =>
          simp only [registerClass, hcase]
          obtain ⟨⟨bf1, bf2, bf3, bf4⟩, ⟨bz1, bz2, bz3, bz4, bz5, bz6⟩,
            ⟨bk1, bk2, bk3, bk4, bk5, bk6⟩, ⟨bs1, bs2, bs3, bs4, bs5⟩, bn, bu⟩ :=
            bindClass_facts (buildAll rs) moduleId r.tok r.name hfresh hp hr0
          refine ⟨?_, ?_, ?_, ?_, ?_⟩
          · rw [bn, hnext]; simp; omega
          · rw [bu]; exact ihh.udsEq
          · intro s hs
            have hsr : r.name ≠ s := hs r (by simp)
            rw [bindClass_parent_frame (buildAll rs) moduleId r.tok r.name hfresh
              hp hr0 hpr (.str s) (fun hc => hsr (LV.str.inj hc).symm)]
            exact ihh.moduleFree s (fun r' h' => hs r' (by simp [h']))
          · intro p hp3
            obtain ⟨p1, p2, p3⟩ := hp3 r (by simp)
            rw [bindClass_registry_frame (buildAll rs) moduleId r.tok r.name hfresh
              hp hr0 hpr (.lightud p) (by simp [p1]) (by simp [p2]) (by simp [p3])]
            exact ihh.registryFree p (fun r' h' => hp3 r' (by simp [h']))
          · intro k rk hk
            by_cases hkL : k < rs.length
            · have hkold : rs.get? k = some rk := by
                rwa [List.get?_append hkL] at hk
              have hrkmem : rk ∈ rs := List.get?_mem hkold
              have hrktok : rk.tok ≠ r.tok := htoknew rk hrkmem
              refine classFacts_preserved rs (rs ++ [r]) (buildAll rs) _ k rk
                (ihh.classFacts k rk hkold) ?_ ?_ ?_ ?_
              · intro j hj
                exact List.get?_append (lt_of_le_of_lt hj hkL)
              · intro j hj key
                refine bindClass_rawget_frame (buildAll rs) moduleId r.tok r.name
                  hfresh hp hr0 j ?_ ?_ ?_ key
                · rw [hnext]
                  rcases hj with rfl | rfl | rfl <;>
                    simp only [czId, ccId, csId] <;> omega
                · rcases hj with rfl | rfl | rfl <;>
                    simp only [czId, ccId, csId, moduleId] <;> omega
                · rcases hj with rfl | rfl | rfl <;>
                    simp only [czId, ccId, csId, registryId] <;> omega
              · intro p hp4
                refine bindClass_registry_frame (buildAll rs) moduleId r.tok r.name
                  hfresh hp hr0 hpr (.lightud p) ?_ ?_ ?_
                · rcases hp4 with rfl | rfl | rfl <;> simp
                  · exact fun hc => hrktok (classID_inj hc)
                  · exact fun hc => (classID_ne_constID r.tok rk.tok) hc.symm
                  · exact fun hc => (classID_ne_staticID r.tok rk.tok) hc.symm
                · rcases hp4 with rfl | rfl | rfl <;> simp
                  · exact fun hc => (classID_ne_constID rk.tok r.tok) hc
                  · exact fun hc => hrktok (constID_inj hc)
                  · exact fun hc => (constID_ne_staticID r.tok rk.tok) hc.symm
                · rcases hp4 with rfl | rfl | rfl <;> simp
                  · exact fun hc => (classID_ne_staticID rk.tok r.tok) hc
                  · exact fun hc => (constID_ne_staticID rk.tok r.tok) hc
                  · exact fun hc => hrktok (staticID_inj hc)
              · refine bindClass_parent_frame (buildAll rs) moduleId r.tok r.name
                  hfresh hp hr0 hpr (.str rk.name)
                  (fun hc => hnamenew rk hrkmem (LV.str.inj hc))
            · have hklen : k < rs.length + 1 := by
                have := List.get?_eq_some.mp hk
                simpa using this.1
              have hkeq : k = rs.length := by omega
              subst hkeq
              have hrk : rk = r := by
                rw [List.get?_concat_length] at hk
                exact (Option.some.inj hk).symm
              rw [hrk]
              have hcz : czId rs.length = (buildAll rs).nextT + 3 := by
                simp [czId, hnext]
              have hccid : ccId rs.length = (buildAll rs).nextT := by
                simp [ccId, hnext]
              have hcsid : csId rs.length = (buildAll rs).nextT + 5 := by
                simp [csId, hnext]
              have hccg : ccgId rs.length = (buildAll rs).nextT + 1 := by
                simp [ccgId, hnext]
              have hccs : ccsId rs.length = (buildAll rs).nextT + 2 := by
                simp [ccsId, hnext]
              have hczs : czsId rs.length = (buildAll rs).nextT + 4 := by
                simp [czsId, hnext]
              refine ⟨?_, ?_, ?_, ?_, ?_, ?_, ?_, ?_, ?_, ?_, ?_, ?_, ?_, ?_,
                ?_, ?_, ?_, ?_, ?_⟩
              · rw [hcz]; exact bf1
              · rw [hccid]; exact bf2
              · rw [hcsid]; exact bf3
              · rw [hcsid]; exact bf4
              · rw [hcz, hccg]; exact bz1
              · rw [hcz, hczs]; exact bz2
              · rw [hcz, hccid]; exact bz3
              · rw [hcz]; exact bz4
              · rw [hcz]; exact bz5
              · rw [hccid, hccg]; exact bk1
              · rw [hccid, hccs]; exact bk2
              · rw [hccid]; exact bk3
              · rw [hccid]; exact bk4
              · rw [hccid]; exact bk5
              · rw [hcsid, hcz]; exact bs1
              · rw [hcsid, hccid]; exact bs2
              · intro s s1 s2 s3 s4 s5 s6 s7 s8
                rw [hcz]
                exact (bindClass_direct_nil (buildAll rs) moduleId r.tok r.name
                  hfresh hp hr0 s s1 s2 s3 s4 s5 s6 s7 s8).1
              · intro s s1 s2 s3 s4 s5 s6 s7 s8
                rw [hccid]
                exact (bindClass_direct_nil (buildAll rs) moduleId r.tok r.name
                  hfresh hp hr0 s s1 s2 s3 s4 s5 s6 s7 s8).2
              · rw [hcase]
                exact ⟨by rw [hcz]; exact bz6, by rw [hccid]; exact bk6⟩
      | some st =>
          simp only [registerClass, hcase]
          obtain ⟨j0, hj0, rj0, hrj0, hrj0t⟩ := by
            refine hsupwf rs.length (by simp) r ?_ st hcase
            rw [List.get?_concat_length]
          have hj0L : j0 < rs.length := hj0
          have hrj0' : rs.get? j0 = some rj0 := by
            rwa [List.get?_append hj0L] at hrj0
          have cfj := ihh.classFacts j0 rj0 hrj0'
          have hts : r.tok ≠ st := by
            have := htoknew rj0 (List.get?_mem hrj0')
            rw [hrj0t] at this
            exact fun hc => this hc.symm
          have hsupreg : (buildAll rs).rawget registryId
              (.lightud (staticID st)) = .table (csId j0) := by
            rw [← hrj0t]; exact cfj.regStatic
          have hscs : csId j0 < (buildAll rs).nextT := by
            rw [hnext]; simp [csId]; omega
          have hscsp : csId j0 ≠ moduleId := by simp [csId, moduleId]
          have hscsr : csId j0 ≠ registryId := by simp [csId, registryId]
          obtain ⟨⟨bf1, bf2, bf3, bf4⟩, ⟨bz1, bz2, bz3, bz4, bz5, bz6⟩,
            ⟨bk1, bk2, bk3, bk4, bk5, bk6⟩, ⟨bs1, bs2, bs3, bs4, bs5⟩, bn, bu⟩ :=
            extendClass_facts (buildAll rs) moduleId r.tok st (csId j0)
              (czId j0) (ccId j0) r.name hfresh hp hr0 hts hsupreg
              cfj.csClass cfj.csConst hscs hscsp hscsr
          refine ⟨?_, ?_, ?_, ?_, ?_⟩
          · rw [bn, hnext]; simp; omega
          · rw [bu]; exact ihh.udsEq
          · intro s hs
            have hsr : r.name ≠ s := hs r (by simp)
            rw [extendClass_parent_frame (buildAll rs) moduleId r.tok st (csId j0)
              r.name hfresh hp hr0 hpr hts hsupreg hscs hscsp hscsr (.str s)
              (fun hc => hsr (LV.str.inj hc).symm)]
            exact ihh.moduleFree s (fun r' h' => hs r' (by simp [h']))
          · intro p hp3
            obtain ⟨p1, p2, p3⟩ := hp3 r (by simp)
            rw [extendClass_registry_frame (buildAll rs) moduleId r.tok st (csId j0)
              r.name hfresh hp hr0 hpr hts hsupreg hscs hscsp hscsr (.lightud p)
              (by simp [p1]) (by simp [p2]) (by simp [p3])]
            exact ihh.registryFree p (fun r' h' => hp3 r' (by simp [h']))
          · intro k rk hk
            by_cases hkL : k < rs.length
            · have hkold : rs.get? k = some rk := by
                rwa [List.get?_append hkL] at hk
              have hrkmem : rk ∈ rs := List.get?_mem hkold
              have hrktok : rk.tok ≠ r.tok := htoknew rk hrkmem
              refine classFacts_preserved rs (rs ++ [r]) (buildAll rs) _ k rk
                (ihh.classFacts k rk hkold) ?_ ?_ ?_ ?_
              · intro j hj
                exact List.get?_append (lt_of_le_of_lt hj hkL)
              · intro j hj key
                refine extendClass_rawget_frame (buildAll rs) moduleId r.tok st
                  (csId j0) r.name hfresh hp hr0 hts hsupreg hscs hscsp hscsr
                  j ?_ ?_ ?_ key
                · rw [hnext]
                  rcases hj with rfl | rfl | rfl <;>
                    simp only [czId, ccId, csId] <;> omega
                · rcases hj with rfl | rfl | rfl <;>
                    simp only [czId, ccId, csId, moduleId] <;> omega
                · rcases hj with rfl | rfl | rfl <;>
                    simp only [czId, ccId, csId, registryId] <;> omega
              · intro p hp4
                refine extendClass_registry_frame (buildAll rs) moduleId r.tok st
                  (csId j0) r.name hfresh hp hr0 hpr hts hsupreg hscs hscsp hscsr
                  (.lightud p) ?_ ?_ ?_
                · rcases hp4 with rfl | rfl | rfl <;> simp
                  · exact fun hc => hrktok (classID_inj hc)
                  · exact fun hc => (classID_ne_constID r.tok rk.tok) hc.symm
                  · exact fun hc => (classID_ne_staticID r.tok rk.tok) hc.symm
                · rcases hp4 with rfl | rfl | rfl <;> simp
                  · exact fun hc => (classID_ne_constID rk.tok r.tok) hc
                  · exact fun hc => hrktok (constID_inj hc)
                  · exact fun hc => (constID_ne_staticID r.tok rk.tok) hc.symm
                · rcases hp4 with rfl | rfl | rfl <;> simp
                  · exact fun hc => (classID_ne_staticID rk.tok r.tok) hc
                  · exact fun hc => (constID_ne_staticID rk.tok r.tok) hc
                  · exact fun hc => hrktok (staticID_inj hc)
              · refine extendClass_parent_frame (buildAll rs) moduleId r.tok st
                  (csId j0) r.name hfresh hp hr0 hpr hts hsupreg hscs hscsp hscsr
                  (.str rk.name) (fun hc => hnamenew rk hrkmem (LV.str.inj hc))
            · have hklen : k < rs.length + 1 := by
                have := List.get?_eq_some.mp hk
                simpa using this.1
              have hkeq : k = rs.length := by omega
              subst hkeq
              have hrk : rk = r := by
                rw [List.get?_concat_length] at hk
                exact (Option.some.inj hk).symm
              rw [hrk]
              have hcz : czId rs.length = (buildAll rs).nextT + 3 := by
                simp [czId, hnext]
              have hccid : ccId rs.length = (buildAll rs).nextT := by
                simp [ccId, hnext]
              have hcsid : csId rs.length = (buildAll rs).nextT + 5 := by
                simp [csId, hnext]
              have hccg : ccgId rs.length = (buildAll rs).nextT + 1 := by
                simp [ccgId, hnext]
              have hccs : ccsId rs.length = (buildAll rs).nextT + 2 := by
                simp [ccsId, hnext]
              have hczs : czsId rs.length = (buildAll rs).nextT + 4 := by
                simp [czsId, hnext]
              refine ⟨?_, ?_, ?_, ?_, ?_, ?_, ?_, ?_, ?_, ?_, ?_, ?_, ?_, ?_,
                ?_, ?_, ?_, ?_, ?_⟩
              · rw [hcz]; exact bf1
              · rw [hccid]; exact bf2
              · rw [hcsid]; exact bf3
              · rw [hcsid]; exact bf4
              · rw [hcz, hccg]; exact bz1
              · rw [hcz, hczs]; exact bz2
              · rw [hcz, hccid]; exact bz3
              · rw [hcz]; exact bz4
              · rw [hcz]; exact bz5
              · rw [hccid, hccg]; exact bk1
              · rw [hccid, hccs]; exact bk2
              · rw [hccid]; exact bk3
              · rw [hccid]; exact bk4
              · rw [hccid]; exact bk5
              · rw [hcsid, hcz]; exact bs1
              · rw [hcsid, hccid]; exact bs2
              · intro s s1 s2 s3 s4 s5 s6 s7 s8
                rw [hcz]
                exact (extendClass_direct_nil (buildAll rs) moduleId r.tok st
                  (csId j0) r.name hfresh hp hr0 hts hsupreg hscs hscsp hscsr
                  s s1 s2 s3 s4 s5 s6 s7 s8).1
              · intro s s1 s2 s3 s4 s5 s6 s7 s8
                rw [hccid]
                exact (extendClass_direct_nil (buildAll rs) moduleId r.tok st
                  (csId j0) r.name hfresh hp hr0 hts hsupreg hscs hscsp hscsr
                  s s1 s2 s3 s4 s5 s6 s7 s8).2
              · rw [hcase]
                refine ⟨j0, hj0L, ⟨rj0, ?_, hrj0t⟩, ?_, ?_⟩
                · rwa [List.get?_append hj0L]
                · rw [hcz]; exact bz6
                · rw [hccid]; exact bk6

/-! ### Characterization of the retrieval walk -/

theorem chainTo_succ (h : Heap) (n mt : Nat) (l : List Nat)
    (hc : chainTo h (n + 1) mt = some l) :
    (h.rawget mt (.str "___super") = .nil ∧ l = [mt]) ∨
    (∃ s l2, h.rawget mt (.str "___super") = .table s ∧
      chainTo h n s = some l2 ∧ l = mt :: l2) := by
  simp only [chainTo] at hc
  cases hs : h.rawget mt (.str "___super") <;> rw [hs] at hc <;>
    simp only [Option.map_eq_some'] at hc
  case nil => exact Or.inl ⟨rfl, (Option.some.inj hc).symm⟩
  case table s =>
      obtain ⟨l2, hl2, hl⟩ := hc
      exact Or.inr ⟨s, l2, rfl, hl2, hl.symm⟩
  all_goals cases hc

theorem chainTo_ne_nil (h : Heap) (fuel mt : Nat) (l : List Nat)
    (hc : chainTo h fuel mt = some l) : ∃ l2, l = mt :: l2 := by
  cases fuel with
  | zero => simp [chainTo] at hc
  | succ n =>
      rcases chainTo_succ h n mt l hc with ⟨_, hl⟩ | ⟨s, l2, _, _, hl⟩
      · exact ⟨[], hl⟩
      · exact ⟨l2, hl⟩

/-- If the requested base metatable occurs in the `___super` chain, the
walk succeeds. -/
theorem getObjectLoop_mem (h : Heap) (v : LV) (base : Nat) :
    ∀ (fuel mt : Nat) (l : List Nat), chainTo h fuel mt = some l → base ∈ l →
    getObjectLoop h v base fuel mt = some (.ok ()) := by
  intro fuel
  induction fuel with
  | zero => intro mt l hc; simp [chainTo] at hc
  | succ n ih =>
      intro mt l hc hmem
      by_cases hb : mt = base
      · simp [getObjectLoop, hb]
      · rcases chainTo_succ h n mt l hc with ⟨hs, hl⟩ | ⟨s, l2, hs, hl2, hl⟩
        · subst hl
          rcases List.mem_singleton.mp hmem with rfl
          exact absurd rfl hb
        · subst hl
          rcases List.mem_cons.mp hmem with hx | hx
          · exact absurd hx.symm hb
          · simp only [getObjectLoop, if_neg hb, hs]
            exact ih s l2 hl2 hx

/-- If the requested base metatable does not occur in the chain, the
walk raises the type-mismatch error built from the base metatable and
the chain's last metatable. -/
theorem getObjectLoop_not_mem (h : Heap) (v : LV) (base : Nat) :
    ∀ (fuel mt : Nat) (l : List Nat), chainTo h fuel mt = some l → base ∉ l →
    getObjectLoop h v base fuel mt =
      some (.error (typeMismatchErr h base (l.getLastD mt) v)) := by
  intro fuel
  induction fuel with
  | zero => intro mt l hc; simp [chainTo] at hc
  | succ n ih =>
      intro mt l hc hmem
      rcases chainTo_succ h n mt l hc with ⟨hs, hl⟩ | ⟨s, l2, hs, hl2, hl⟩
      · subst hl
        have hb : mt ≠ base := fun he => hmem (by simp [he])
        simp [getObjectLoop, if_neg hb, hs]
      · subst hl
        have hb : mt ≠ base := fun he => hmem (by simp [he])
        have hmem2 : base ∉ l2 := fun hx => hmem (List.mem_cons_of_mem mt hx)
        obtain ⟨l3, hl3⟩ := chainTo_ne_nil h n s l2 hl2
        have hrec := ih s l2 hl2 hmem2
        simp only [getObjectLoop, if_neg hb, hs, hrec]
        subst hl3
        have hx : (s :: l3).getLast? = some ((s :: l3).getLast (List.cons_ne_nil s l3)) :=
          List.getLast?_eq_getLast _ _
        simp [List.getLastD, hx]

/-- Extending only the userdata side of a heap changes no table. -/
theorem rawget_mkUds (h : Heap) (l2 : List (Nat × UData)) (nu j : Nat) (k : LV) :
    (Heap.mk h.tables l2 h.nextT nu).rawget j k = h.rawget j k := rfl

theorem typeMismatchErr_mkUds (h : Heap) (l2 : List (Nat × UData)) (nu a b : Nat)
    (v : LV) :
    typeMismatchErr (Heap.mk h.tables l2 h.nextT nu) a b v =
      typeMismatchErr h a b v := rfl

theorem getObjectLoop_mkUds (h : Heap) (l2 : List (Nat × UData)) (nu : Nat)
    (v : LV) (base : Nat) :
    ∀ fuel mt, getObjectLoop (Heap.mk h.tables l2 h.nextT nu) v base fuel mt =
      getObjectLoop h v base fuel mt := by
  intro fuel
  induction fuel with
  | zero => intro mt; rfl
  | succ n ih =>
      intro mt
      simp only [getObjectLoop, rawget_mkUds, typeMismatchErr_mkUds]
      cases h.rawget mt (.str "___super") <;> simp [ih]

theorem get?_tok_unique (regs : List RegSpec)
    (htok : (regs.map RegSpec.tok).Nodup)
    {a b : Nat} {ra rb : RegSpec} (ha : regs.get? a = some ra)
    (hb : regs.get? b = some rb) (ht : ra.tok = rb.tok) : a = b := by
  have ha' : (regs.map RegSpec.tok).get? a = some ra.tok := by
    rw [List.get?_map, ha]; rfl
  have hb' : (regs.map RegSpec.tok).get? b = some rb.tok := by
    rw [List.get?_map, hb]; rfl
  have halen : a < (regs.map RegSpec.tok).length :=
    (List.get?_eq_some.mp ha').1
  exact List.get?_inj halen htok (by rw [ha', hb', ht])

/-- Walking from the const metatable of a registered class never
reaches a table that is not a const metatable; the walk errors at the
chain end. -/
theorem constChain_error (regs : List RegSpec) (hwf : RegsWF regs) (v : LV)
    (base : Nat) (hbase : ∀ j : Nat, base ≠ ccId j) :
    ∀ k, ∀ rk, regs.get? k = some rk → ∀ fuel, k < fuel →
    ∃ e, getObjectLoop (buildAll regs) v base fuel (ccId k) = some (.error e) := by
  intro k
  induction k using Nat.strong_induction_on with
  | _ k ih =>
      intro rk hk fuel hfuel
      obtain ⟨f, rfl⟩ : ∃ f, fuel = f + 1 := ⟨fuel - 1, by omega⟩
      have cf := (buildAll_inv regs hwf).classFacts k rk hk
      have hb : ccId k ≠ base := fun he => hbase k he.symm
      have hsf := cf.superF
      cases hst : rk.superTok with
      | none =>
          rw [hst] at hsf
          obtain ⟨hsf1, hsf2⟩ := hsf
          exact ⟨typeMismatchErr (buildAll regs) base (ccId k) v,
            by simp [getObjectLoop, if_neg hb, hsf2]⟩
      | some st =>
          rw [hst] at hsf
          obtain ⟨j, hj, ⟨rj, hrj, hrjt⟩, hczs, hccs⟩ := hsf
          obtain ⟨e, he⟩ := ih j hj rj hrj f (by omega)
          exact ⟨e, by simp [getObjectLoop, if_neg hb, hccs, he]⟩

/-- Walking from the class metatable of a registered class reaches the
class metatable of any of its registered ancestors. -/
theorem czChain_mem (regs : List RegSpec) (hwf : RegsWF regs) (v : LV) :
    ∀ k i, AncIdx regs k i → ∀ fuel, k < fuel →
    getObjectLoop (buildAll regs) v (czId i) fuel (czId k) = some (.ok ()) := by
  intro k i hanc
  induction hanc with
  | refl k =>
      intro fuel hf
      obtain ⟨f, rfl⟩ : ∃ f, fuel = f + 1 := ⟨fuel - 1, by omega⟩
      simp [getObjectLoop]
  | step k j i rk rj hk hj hst hji ih =>
      intro fuel hf
      obtain ⟨f, rfl⟩ : ∃ f, fuel = f + 1 := ⟨fuel - 1, by omega⟩
      have cf := (buildAll_inv regs hwf).classFacts k rk hk
      have hsf := cf.superF
      rw [hst] at hsf
      obtain ⟨j2, hj2k, ⟨rj2, hrj2, hrj2t⟩, hczs, hccs⟩ := hsf
      have hjj : j2 = j := get?_tok_unique regs hwf.1 hrj2 hj hrj2t
      subst hjj
      by_cases he : czId k = czId i
      · simp [getObjectLoop, he]
      · simp only [getObjectLoop, if_neg he, hczs]
        exact ih f (by omega)

/-- The lookup loop returns nil when the key has no direct entry and no
getter C function anywhere along the `___super` chain. -/
theorem indexLoop_absent (h : Heap) (env : NativeEnv) (recv : LV) (key : String) :
    ∀ (fuel mt : Nat) (l : List Nat), chainTo h fuel mt = some l →
    (∀ m ∈ l, h.rawget m (.str key) = .nil) →
    (∀ m ∈ l, ∃ g, h.rawget m (.str "___getters") = .table g ∧
      ∀ f2 : CFun, h.rawget g (.str key) ≠ .cfn f2) →
    indexLoop h env recv (.str key) fuel mt = some (.ok .nil) := by
  intro fuel
  induction fuel with
  | zero => intro mt l hc; simp [chainTo] at hc
  | succ n ih =>
      intro mt l hc hd hg
      obtain ⟨l2, rfl⟩ := chainTo_ne_nil h (n + 1) mt l hc
      have hmem : mt ∈ mt :: l2 := List.mem_cons_self mt l2
      obtain ⟨g, hgt, hgn⟩ := hg mt hmem
      have hdn := hd mt hmem
      rcases chainTo_succ h n mt (mt :: l2) hc with ⟨hs, hl⟩ | ⟨s, l2', hs, hl2, hl⟩
      · have : l2 = [] := by simpa using hl
        subst this
        simp only [indexLoop, hdn, hgt, LV.asTable]
        cases hgv : h.rawget g (.str key) <;>
          simp [hs, hgv] <;> exact absurd hgv (hgn _)
      · have : l2 = l2' := by simpa using hl
        subst this
        simp only [indexLoop, hdn, hgt, LV.asTable]
        have hrec := ih s l2 hl2
          (fun m hm => hd m (List.mem_cons_of_mem mt hm))
          (fun m hm => hg m (List.mem_cons_of_mem mt hm))
        cases hgv : h.rawget g (.str key) <;>
          simp [hs, hgv, hrec] <;> exact absurd hgv (hgn _)

/-- The assignment loop raises the "no writable class member" error
when the key has no setter C function anywhere along the chain. -/
theorem newIndexLoop_absent (h : Heap) (env : NativeEnv) (recv val : LV)
    (key : String) :
    ∀ (fuel mt : Nat) (l : List Nat), chainTo h fuel mt = some l →
    (∀ m ∈ l, ∃ s, h.rawget m (.str "___setters") = .table s ∧
      ∀ f2 : CFun, h.rawget s (.str key) ≠ .cfn f2) →
    newIndexLoop h env recv (.str key) val fuel mt =
      some (.error (.err ("no writable class member " ++ quoteStr key))) := by
  intro fuel
  induction fuel with
  | zero => intro mt l hc; simp [chainTo] at hc
  | succ n ih =>
      intro mt l hc hset
      obtain ⟨l2, rfl⟩ := chainTo_ne_nil h (n + 1) mt l hc
      have hmem : mt ∈ mt :: l2 := List.mem_cons_self mt l2
      obtain ⟨s0, hst, hsn⟩ := hset mt hmem
      rcases chainTo_succ h n mt (mt :: l2) hc with ⟨hs, hl⟩ | ⟨s, l2', hs, hl2, hl⟩
      · have : l2 = [] := by simpa using hl
        subst this
        simp only [newIndexLoop, hst, LV.asTable]
        cases hgv : h.rawget s0 (.str key) <;>
          simp [hs, hgv, keyDisplay] <;> exact absurd hgv (hsn _)
      · have : l2 = l2' := by simpa using hl
        subst this
        simp only [newIndexLoop, hst, LV.asTable]
        have hrec := ih s l2 hl2
          (fun m hm => hset m (List.mem_cons_of_mem mt hm))
        cases hgv : h.rawget s0 (.str key) <;>
          simp [hs, hgv, hrec] <;> exact absurd hgv (hsn _)

/-- C3: a key with no direct entry, no getter and no setter anywhere in
the metatable chain reads as nil without an error, while assigning it
raises the "no writable class member" error; assigning a key whose
registered setter is the read-only stub raises the "is read-only" error
(`CppBindClassMetaMethod::index` / `newIndex` / `errorReadOnly`,
`CppBindClass.cpp` lines 34-191). -/
theorem claim3_missing_member (h : Heap) (env : NativeEnv) (fuel u : Nat)
    (ud : UData) (key : String) (val : LV) (l : List Nat)
    (hud : alookup h.uds u = some ud)
    (hsig : h.rawget registryId (h.rawget ud.mt (.lightud signaturePtr)) =
      .table ud.mt) :
    ((chainTo h fuel ud.mt = some l) →
     (∀ m ∈ l, h.rawget m (.str key) = .nil) →
     (∀ m ∈ l, ∃ g, h.rawget m (.str "___getters") = .table g ∧
        ∀ f2 : CFun, h.rawget g (.str key) ≠ .cfn f2) →
     (∀ m ∈ l, ∃ s, h.rawget m (.str "___setters") = .table s ∧
        ∀ f2 : CFun, h.rawget s (.str key) ≠ .cfn f2) →
     index h env fuel (.userdata u) (.str key) = some (.ok .nil) ∧
     newIndex h env fuel (.userdata u) (.str key) val =
       some (.error (.err ("no writable class member " ++ quoteStr key)))) ∧
    (∀ s0, h.rawget ud.mt (.str "___setters") = .table s0 →
     h.rawget s0 (.str key) = .cfn (.errorReadOnly key) → 1 ≤ fuel →
     newIndex h env fuel (.userdata u) (.str key) val =
       some (.error (.err ("class member " ++ quoteStr key ++ " is read-only")))) := by
  constructor
  · intro hc hd hg hs
    constructor
    · have hloop := indexLoop_absent h env (.userdata u) key fuel ud.mt l hc hd hg
      simp [index, sigCheck, Heap.metatableOf, hud, hsig, hloop]
    · have hloop := newIndexLoop_absent h env (.userdata u) val key fuel ud.mt l hc hs
      simp [newIndex, sigCheck, Heap.metatableOf, hud, hsig, hloop]
  · intro s0 hst hro hf
    obtain ⟨f, rfl⟩ : ∃ f, fuel = f + 1 := ⟨fuel - 1, by omega⟩
    simp [newIndex, sigCheck, Heap.metatableOf, hud, hsig, newIndexLoop, hst,
      LV.asTable, hro, callCFun]

/-- C4: registering a non-const member function stores the real
function in the mutable-instance metatable and an error-raising stub in
the const-instance metatable; looking the name up through a
const-tagged instance finds the stub, and calling the stub always
raises the const-violation error without running any native member body
(`CppBindClassBase::setMemberFunction`, `CppBindClass.cpp` lines
307-312, and `CppBindClassMetaMethod::errorConstMismatch`, lines
193-197). -/
theorem claim4_const_stub (h : Heap) (env : NativeEnv) (meta cz cc u p : Nat)
    (name : String) (proc : LV) (fuel : Nat) (args : List LV)
    (hcls : h.rawget meta (.str "___class") = .table cz)
    (hcst : h.rawget meta (.str "___const") = .table cc)
    (hmcz : meta ≠ cz) (hzc : cz ≠ cc)
    (hrz : registryId ≠ cz) (hrc : registryId ≠ cc)
    (hud : alookup h.uds u = some ⟨cc, p⟩)
    (hsig : h.rawget cc (.lightud signaturePtr) = .lightud (constID p))
    (hreg : h.rawget registryId (.lightud (constID p)) = .table cc)
    (hfuel : 1 ≤ fuel) :
    (setMemberFunction h meta name proc false).rawget cz (.str name) = proc ∧
    (setMemberFunction h meta name proc false).rawget cc (.str name) =
      .cfn (.errorConstMismatch name) ∧
    index (setMemberFunction h meta name proc false) env fuel (.userdata u)
      (.str name) = some (.ok (.cfn (.errorConstMismatch name))) ∧
    callCFun (setMemberFunction h meta name proc false) env fuel
      (.errorConstMismatch name) args =
      some (.error (.err ("class member function " ++ quoteStr name ++
        " can not be access by const object")), false) := by
  have hcz2 : (setMemberFunction h meta name proc false).rawget cz (.str name) =
      proc := by
    simp [setMemberFunction, hcls, LV.asTable, Heap.refSet, rawget_rawset,
      eq_false (Ne.symm hmcz), hcst, eq_false (Ne.symm hzc)]
  have hcc2 : (setMemberFunction h meta name proc false).rawget cc (.str name) =
      .cfn (.errorConstMismatch name) := by
    simp [setMemberFunction, hcls, LV.asTable, Heap.refSet, rawget_rawset,
      eq_false (Ne.symm hmcz), hcst]
  have hccsig : (setMemberFunction h meta name proc false).rawget cc
      (.lightud signaturePtr) = .lightud (constID p) := by
    simp [setMemberFunction, hcls, LV.asTable, Heap.refSet, rawget_rawset,
      eq_false (Ne.symm hmcz), hcst, hsig]
  have hregp : (setMemberFunction h meta name proc false).rawget registryId
      (.lightud (constID p)) = .table cc := by
    simp [setMemberFunction, hcls, LV.asTable, Heap.refSet, rawget_rawset,
      eq_false (Ne.symm hmcz), hcst, eq_false hrz, eq_false hrc, hreg]
  refine ⟨hcz2, hcc2, ?_, ?_⟩
  · obtain ⟨f, rfl⟩ : ∃ f, fuel = f + 1 := ⟨fuel - 1, by omega⟩
    have hudp : alookup (setMemberFunction h meta name proc false).uds u =
        some ⟨cc, p⟩ := by
      simp only [setMemberFunction, uds_refSet]
      exact hud
    simp [index, sigCheck, Heap.metatableOf, hudp, hccsig, hregp, indexLoop, hcc2]
  · simp [callCFun]

/-- C9: for every registered class the mutable-instance and the
const-instance metatable reference one same getters sub-table while
their setters sub-tables are distinct; a member getter registered
through the mutable metatable (`setMemberGetter`, `CppBindClass.cpp`
lines 288-291) is therefore found by lookup through both the
non-const-tagged and the const-tagged instance, and its invocation
retrieves the receiver const-qualified and returns the native value. -/
theorem claim9_shared_getter_table (regs : List RegSpec) (hwf : RegsWF regs)
    (k : Nat) (rk : RegSpec) (hk : regs.get? k = some rk)
    (nm : String) (gid p1 p2 fuel : Nat) (env : NativeEnv)
    (n1 : nm ≠ "__index") (n2 : nm ≠ "__newindex") (n3 : nm ≠ "___getters")
    (n4 : nm ≠ "___setters") (n5 : nm ≠ "___type") (n6 : nm ≠ "___const")
    (n7 : nm ≠ "__gc") (n8 : nm ≠ "___super")
    (hfuel : 2 ≤ fuel)
    (h1 h2 : Heap) (u1 u2 : Nat)
    (hall1 : allocate (setMemberGetter (buildAll regs) (csId k) nm
      (.cfn (.memberGetter rk.tok gid))) rk.tok false p1 = some (h1, u1))
    (hall2 : allocate h1 rk.tok true p2 = some (h2, u2)) :
    (buildAll regs).rawget (czId k) (.str "___getters") = .table (ccgId k) ∧
    (buildAll regs).rawget (ccId k) (.str "___getters") = .table (ccgId k) ∧
    (buildAll regs).rawget (czId k) (.str "___setters") = .table (czsId k) ∧
    (buildAll regs).rawget (ccId k) (.str "___setters") = .table (ccsId k) ∧
    czsId k ≠ ccsId k ∧
    (setMemberGetter (buildAll regs) (csId k) nm
      (.cfn (.memberGetter rk.tok gid))).rawget (ccgId k) (.str nm) =
      .cfn (.memberGetter rk.tok gid) ∧
    index h2 env fuel (.userdata u1) (.str nm) =
      some (.ok (env.readVar gid p1)) ∧
    index h2 env fuel (.userdata u2) (.str nm) =
      some (.ok (env.readVar gid p2)) := by
  have cf := (buildAll_inv regs hwf).classFacts k rk hk
  obtain ⟨f, rfl⟩ : ∃ f, fuel = f + 2 := ⟨fuel - 2, by omega⟩
  have hg0 : setMemberGetter (buildAll regs) (csId k) nm
      (.cfn (.memberGetter rk.tok gid)) =
      (buildAll regs).rawset (ccgId k) (.str nm) (.cfn (.memberGetter rk.tok gid)) := by
    simp [setMemberGetter, cf.csClass, Heap.refGet, cf.czGetters, LV.asTable,
      Heap.refSet]
  have eg1 : (ccgId k = czId k) = False := by simp [ccgId, czId]
  have eg2 : (ccgId k = ccId k) = False := by simp [ccgId, ccId]
  have eg3 : (ccgId k = registryId) = False := by simp [ccgId, registryId]
  have hgz : ∀ key : LV, (setMemberGetter (buildAll regs) (csId k) nm
      (.cfn (.memberGetter rk.tok gid))).rawget (czId k) key =
      (buildAll regs).rawget (czId k) key := by
    intro key; rw [hg0]; simp [rawget_rawset, eg1]
  have hgc : ∀ key : LV, (setMemberGetter (buildAll regs) (csId k) nm
      (.cfn (.memberGetter rk.tok gid))).rawget (ccId k) key =
      (buildAll regs).rawget (ccId k) key := by
    intro key; rw [hg0]; simp [rawget_rawset, eg2]
  have hgr : ∀ key : LV, (setMemberGetter (buildAll regs) (csId k) nm
      (.cfn (.memberGetter rk.tok gid))).rawget registryId key =
      (buildAll regs).rawget registryId key := by
    intro key; rw [hg0]; simp [rawget_rawset, eg3]
  have hgg : (setMemberGetter (buildAll regs) (csId k) nm
      (.cfn (.memberGetter rk.tok gid))).rawget (ccgId k) (.str nm) =
      .cfn (.memberGetter rk.tok gid) := by
    rw [hg0]; simp [rawget_rawset]
  simp only [allocate, getClassIDOf, Bool.false_eq_true, if_false, if_true,
    hgr _, cf.regClazz, LV.asTable, Option.some.injEq, Prod.mk.injEq] at hall1
  obtain ⟨rfl, rfl⟩ := hall1
  simp only [allocate, getClassIDOf, if_true, rawget_mkUds, hgr _, cf.regConst,
    LV.asTable, Option.some.injEq, Prod.mk.injEq] at hall2
  obtain ⟨rfl, rfl⟩ := hall2
  have hdz : (buildAll regs).rawget (czId k) (.str nm) = .nil :=
    cf.czDirect nm n1 n2 n3 n4 n5 n6 n7 n8
  have hdc : (buildAll regs).rawget (ccId k) (.str nm) = .nil :=
    cf.ccDirect nm n1 n2 n3 n4 n5 n6 n7 n8
  refine ⟨cf.czGetters, cf.ccGetters, cf.czSetters, cf.ccSetters,
    by simp [czsId, ccsId], hgg, ?_, ?_⟩
  · simp [index, sigCheck, Heap.metatableOf, alookup, rawget_mkUds, hgz _,
      hgc _, hgr _, cf.czSig, cf.regClazz, indexLoop, hdz, cf.czGetters,
      LV.asTable, hgg, callCFun, cppGet, getObjectT, getObject, getClassIDOf,
      LV.isUserdataV, cf.regConst, cf.czConst, getObjectLoop, Except.map,
      receiverArgs]
  · simp [index, sigCheck, Heap.metatableOf, alookup, rawget_mkUds, hgz _,
      hgc _, hgr _, cf.ccSig, cf.regConst, indexLoop, hdc, cf.ccGetters,
      LV.asTable, hgg, callCFun, cppGet, getObjectT, getObject, getClassIDOf,
      LV.isUserdataV, cf.ccConst, getObjectLoop, Except.map, receiverArgs]

/-- C1: for every registered class `T` and every Bound Object of `T`,
retrieval with `want_const = true` succeeds for both the const-tagged
and the non-const-tagged instance and returns the underlying pointer,
while retrieval with `want_const = false` on a const-tagged instance
raises a Lua error and never returns a pointer
(`CppObject::getObject`, `CppObject.cpp` lines 124-185). -/
theorem claim1_const_retrieval (regs : List RegSpec) (hwf : RegsWF regs)
    (k : Nat) (rk : RegSpec) (hk : regs.get? k = some rk)
    (p q fuel : Nat) (hfuel : regs.length < fuel)
    (hM hC : Heap) (uM uC : Nat)
    (hallM : allocate (buildAll regs) rk.tok false p = some (hM, uM))
    (hallC : allocate (buildAll regs) rk.tok true q = some (hC, uC)) :
    cppGet hM (.userdata uM) rk.tok true fuel = some (.ok p) ∧
    cppGet hC (.userdata uC) rk.tok true fuel = some (.ok q) ∧
    (∃ e, cppGet hC (.userdata uC) rk.tok false fuel = some (.error e)) := by
  have cf := (buildAll_inv regs hwf).classFacts k rk hk
  have hkL : k < regs.length := by
    have := List.get?_eq_some.mp hk
    exact this.1
  obtain ⟨f, rfl⟩ : ∃ f, fuel = f + 1 := ⟨fuel - 1, by omega⟩
  simp only [allocate, getClassIDOf, Bool.false_eq_true, if_false, if_true,
    cf.regClazz, cf.regConst, LV.asTable, Option.some.injEq, Prod.mk.injEq] at hallM hallC
  obtain ⟨rfl, rfl⟩ := hallM
  obtain ⟨rfl, rfl⟩ := hallC
  refine ⟨?_, ?_, ?_⟩
  · simp [cppGet, getObjectT, getObject, getClassIDOf, LV.isUserdataV,
      rawget_mkUds, cf.regConst, cf.czConst, LV.asTable, alookup,
      getObjectLoop, Except.map]
  · simp [cppGet, getObjectT, getObject, getClassIDOf, LV.isUserdataV,
      rawget_mkUds, cf.regConst, cf.ccConst, LV.asTable, alookup,
      getObjectLoop, Except.map]
  · have hbase : ∀ j : Nat, czId k ≠ ccId j := by
      intro j; simp only [czId, ccId]; omega
    obtain ⟨e, he⟩ := constChain_error regs hwf (.userdata (buildAll regs).nextU)
      (czId k) hbase k rk hk (f + 1) (by omega)
    refine ⟨e, ?_⟩
    simp [cppGet, getObjectT, getObject, getClassIDOf, LV.isUserdataV,
      rawget_mkUds, getObjectLoop_mkUds, cf.regClazz, LV.asTable, alookup, he,
      Except.map]

/-- C2: the retrieval walk compares the object's own metatable first
(the chain returned by `chainTo` starts at it), succeeds exactly when
the requested token's registered metatable occurs along the `___super`
chain, and otherwise raises a type-mismatch error naming the expected
type (from the requested metatable) and the actual type (from the
chain-end metatable), as in `CppObject::getObject` lines 159-182 and
`CppObject::typeMismatchError` lines 71-95 of `CppObject.cpp`. -/
theorem claim2_walk_order (h : Heap) (u : Nat) (ud : UData)
    (base_id base_mt fuel : Nat) (l : List Nat) (en an : String)
    (hud : alookup h.uds u = some ud)
    (hreg : h.rawget registryId (.lightud base_id) = .table base_mt)
    (hc : chainTo h fuel ud.mt = some l)
    (hen : h.rawget base_mt (.str "___type") = .str en)
    (han : h.rawget (l.getLastD ud.mt) (.str "___type") = .str an) :
    (∃ l2, l = ud.mt :: l2) ∧
    (base_mt ∈ l → getObject h (.userdata u) base_id false fuel = some (.ok u)) ∧
    (base_mt ∉ l → getObject h (.userdata u) base_id false fuel =
      some (.error (.err (en ++ " expected, got " ++ an)))) := by
  refine ⟨chainTo_ne_nil h fuel ud.mt l hc, ?_, ?_⟩
  · intro hmem
    have hloop := getObjectLoop_mem h (.userdata u) base_mt fuel ud.mt l hc hmem
    simp [getObject, LV.isUserdataV, hreg, LV.asTable, hud, hloop, Except.map]
  · intro hmem
    have hloop := getObjectLoop_not_mem h (.userdata u) base_mt fuel ud.mt l hc hmem
    have han2 : h.rawget (l.getLast?.getD ud.mt) (.str "___type") = .str an := by
      rw [← List.getLastD_eq_getLast?]; exact han
    simp [getObject, LV.isUserdataV, hreg, LV.asTable, hud, hloop, Except.map,
      typeMismatchErr, hen, han2, lvToStringOpt]

/-- C10: `getExactObject` succeeds only on raw metatable equality with
the registered metatable of exactly the requested class (no `___super`
walk): it accepts the exact class and rejects any proper-subclass
instance, while `getObject` accepts the subclass; the per-class `__gc`
finalizer (`CppBindClassDestructor::call`) is stored per class and its
retrieval uses the exact check. -/
theorem claim10_exact_object (regs : List RegSpec) (hwf : RegsWF regs)
    (k i : Nat) (rk ri : RegSpec)
    (hk : regs.get? k = some rk) (hi : regs.get? i = some ri)
    (hanc : AncIdx regs k i) (hki : k ≠ i)
    (p fuel : Nat) (hfuel : regs.length < fuel)
    (h1 : Heap) (u : Nat) (env : NativeEnv)
    (hall : allocate (buildAll regs) rk.tok false p = some (h1, u)) :
    getExactObjectT h1 (.userdata u) rk.tok false = some (.ok u) ∧
    (∃ e, getExactObjectT h1 (.userdata u) ri.tok false = some (.error e)) ∧
    getObjectT h1 (.userdata u) ri.tok false fuel = some (.ok u) ∧
    h1.rawget (czId k) (.str "__gc") = .cfn (.destructor rk.tok false) ∧
    callCFun h1 env fuel (.destructor rk.tok false) [.userdata u] =
      some (.ok [], true) ∧
    (∃ e, callCFun h1 env fuel (.destructor ri.tok false) [.userdata u] =
      some (.error e, false)) := by
  have cfk := (buildAll_inv regs hwf).classFacts k rk hk
  have cfi := (buildAll_inv regs hwf).classFacts i ri hi
  have hkL : k < regs.length := (List.get?_eq_some.mp hk).1
  simp only [allocate, getClassIDOf, Bool.false_eq_true, if_false,
    cfk.regClazz, LV.asTable, Option.some.injEq, Prod.mk.injEq] at hall
  obtain ⟨rfl, rfl⟩ := hall
  have hne : czId i ≠ czId k := by
    simp only [czId]; omega
  have hexact_ok : getExactObjectT
      { buildAll regs with
        uds := ((buildAll regs).nextU, ⟨czId k, p⟩) :: (buildAll regs).uds,
        nextU := (buildAll regs).nextU + 1 }
      (.userdata (buildAll regs).nextU) rk.tok false =
      some (.ok (buildAll regs).nextU) := by
    simp [getExactObjectT, getExactObject, getClassIDOf, LV.isUserdataV,
      rawget_mkUds, alookup, cfk.regClazz]
  have hmem := czChain_mem regs hwf (.userdata (buildAll regs).nextU) k i hanc
    fuel (by omega)
  refine ⟨hexact_ok, ?_, ?_, cfk.czGc, ?_, ?_⟩
  · refine ⟨typeMismatchErr (buildAll regs) (czId i) (czId k)
      (.userdata (buildAll regs).nextU), ?_⟩
    simp [getExactObjectT, getExactObject, getClassIDOf, LV.isUserdataV,
      rawget_mkUds, typeMismatchErr_mkUds, alookup, cfi.regClazz, hne, LV.asTable]
  · simp [getObjectT, getObject, getClassIDOf, LV.isUserdataV,
      rawget_mkUds, getObjectLoop_mkUds, alookup, cfi.regClazz, LV.asTable,
      hmem, Except.map]
  · simp [callCFun, getExactObjectT, getExactObject, getClassIDOf,
      LV.isUserdataV, rawget_mkUds, alookup, cfk.regClazz]
  · refine ⟨typeMismatchErr (buildAll regs) (czId i) (czId k)
      (.userdata (buildAll regs).nextU), ?_⟩
    simp [callCFun, getExactObjectT, getExactObject, getClassIDOf,
      LV.isUserdataV, rawget_mkUds, typeMismatchErr_mkUds, alookup,
      cfi.regClazz, hne, LV.asTable]

/-- C5: all stack arguments (and, for a method, the receiver) are
converted and validated before the underlying native callable runs: a
failing receiver retrieval or argument conversion yields that error
with the callable never invoked, the callable runs only when receiver
and the whole argument batch converted, and output parameters are
pushed back (after the results) only once the callable has returned
(`CppBindMethodBase::call` / `CppBindClassMethodBase::call` /
`CppArgTupleInput` / `CppArgTupleOutput`). -/
theorem claim5_batch_conversion (recv : Except LuaError Nat)
    (specs : List ArgSpec) (stack : List Slot) (iarg : Nat)
    (fn : Nat → List Slot → Except LuaError (List Slot)) :
    (∀ e, recv = .error e →
      methodCall recv specs stack iarg fn = (.error e, false)) ∧
    (∀ r e, recv = .ok r → argTupleInput stack specs iarg = .error e →
      methodCall recv specs stack iarg fn = (.error e, false)) ∧
    ((methodCall recv specs stack iarg fn).2 = true →
      ∃ r args, recv = .ok r ∧ argTupleInput stack specs iarg = .ok args) ∧
    (∀ r args results, recv = .ok r →
      argTupleInput stack specs iarg = .ok args → fn r args = .ok results →
      methodCall recv specs stack iarg fn =
        (.ok (results ++ argTupleOutput specs args), true)) := by
  refine ⟨?_, ?_, ?_, ?_⟩
  · intro e he; simp [methodCall, he]
  · intro r e hr he; simp [methodCall, hr, he]
  · intro hinv
    cases hrv : recv with
    | error e => simp [methodCall, hrv] at hinv
    | ok r =>
        cases hin : argTupleInput stack specs iarg with
        | error e => simp [methodCall, hrv, hin] at hinv
        | ok args => exact ⟨r, args, rfl, rfl⟩
  · intro r args results hr hin hfn
    simp [methodCall, hr, hin, hfn]

/-- The round trip through the rounded double is the identity exactly
on the values representable at 53 significand bits. -/
theorem castToDouble_small (v : Int) (h1 : -(2 ^ 53) ≤ v) (h2 : v ≤ 2 ^ 53) :
    castToDouble v = v := by
  have hn : v.natAbs ≤ 2 ^ 53 := by omega
  unfold castToDouble roundSig53
  rw [if_pos hn]
  by_cases hv : v < 0
  · rw [if_pos hv]; omega
  · rw [if_neg hv]; omega

/-- C6 counterexample: in the unsafe 64-bit mode the push/get round
trip silently returns a different value at `2 ^ 53 + 1`, which is a
representable 64-bit value. -/
theorem claim6_counterexample :
    (unsafeInt64Push false 9007199254740993).bind unsafeInt64Get =
      .ok 9007199254740992 ∧
    (9007199254740992 : Int) ≠ 9007199254740993 := by decide

/-- C6 (amended): the push/get round trip reproduces the value exactly
for booleans, characters, 32-bit and 64-bit integers through the
integer subtype, and strings with embedded NUL bytes (whose byte length
and content are preserved); 64-bit integers through the unsafe-int64
mode round-trip exactly only for values representable in an IEEE
binary64 (in particular all `|v| ≤ 2^53`), and with the check flag set
the push raises instead of losing precision. -/
theorem claim6_roundtrip_amended :
    (∀ b : Bool, boolGet (boolPush b) = .ok b) ∧
    (∀ c : Nat, c < 256 → charGet (charPush c) = .ok c) ∧
    (∀ v : Int, -(2 ^ 31) ≤ v → v < 2 ^ 31 → intGet (intPush v) = .ok v) ∧
    (∀ v : Int, -(2 ^ 63) ≤ v → v < 2 ^ 63 → longGet (longPush v) = .ok v) ∧
    (∀ bytes : List Nat, stringGet (stringPush bytes) = .ok bytes ∧
      (stringGet (stringPush bytes)).map List.length = .ok bytes.length) ∧
    (∀ v : Int, -(2 ^ 53) ≤ v → v ≤ 2 ^ 53 →
      (unsafeInt64Push false v).bind unsafeInt64Get = .ok v) ∧
    (∀ v : Int, castToDouble v ≠ v →
      unsafeInt64Push true v = .error (.err "unsafe cast from 64-bit int")) := by
  refine ⟨?_, ?_, ?_, ?_, ?_, ?_, ?_⟩
  · intro b; cases b <;> rfl
  · intro c _
    by_cases h0 : c = 0 <;>
      simp [charPush, charGet, checkLString, h0, Except.map]
  · intro v h1 h2
    simp only [intGet, intPush, checkInteger, wrapInt, Except.map]
    congr 1
    omega
  · intro v h1 h2
    simp only [longGet, longPush, checkInteger, wrapInt, Except.map]
    congr 1
    omega
  · intro bytes
    exact ⟨rfl, rfl⟩
  · intro v h1 h2
    simp [unsafeInt64Push, unsafeInt64Get, checkNumber, Except.bind,
      castToDouble_small v h1 h2]
  · intro v hne
    have hvc : (v = castToDouble v) = False := eq_false (fun h => hne h.symm)
    simp [unsafeInt64Push, hvc]

/-- C7 counterexample: for a class type retrieved by reference,
`opt` on a nil slot does not return the given default (7 here): it
raises an error (`LuaCppObject::opt`, `impl/CppObject.h` lines
462-468). -/
theorem claim7_counterexample :
    luaCppObjectOpt initialHeap .nil 0 false 7 5 =
      some (.error (.err "expect userdata, got nil")) ∧
    luaCppObjectOpt initialHeap .nil 0 false 7 5 ≠ some (.ok 7) := by decide

/-- C7 (amended): `opt` returns the given default on an absent-or-nil
slot for class types retrieved by pointer and for the numeric and
string conversions; for booleans only an absent slot yields the default
(nil coerces to false); and for class types retrieved by value or by
reference `opt` never yields the default: every call raises an error
(the nil test in the source is inverted, so even a valid reference
errors). -/
theorem claim7_opt_default_amended :
    (∀ (h : Heap) (tok d fuel : Nat) (c : Bool),
      luaCppObjectPtrOpt h .nil tok c d fuel = some (.ok d)) ∧
    (∀ (s : Slot) (d : Int), isNoneOrNilS s = true → intOpt s d = .ok d) ∧
    (∀ (s : Slot) (d : List Nat), isNoneOrNilS s = true → stringOpt s d = .ok d) ∧
    (∀ (s : Slot) (d : Int), isNoneOrNilS s = true → unsafeInt64Opt s d = .ok d) ∧
    (∀ d : Bool, boolOpt .absent d = .ok d) ∧
    boolOpt .nil true = .ok false ∧
    (∀ (h : Heap) (v : LV) (tok : Nat) (c : Bool) (d fuel : Nat)
      (r : Except LuaError Nat),
      luaCppObjectOpt h v tok c d fuel = some r → ∃ e, r = .error e) := by
  refine ⟨?_, ?_, ?_, ?_, ?_, rfl, ?_⟩
  · intro h tok d fuel c; simp [luaCppObjectPtrOpt, LV.isNil]
  · intro s d hs; simp [intOpt, hs]
  · intro s d hs; simp [stringOpt, hs]
  · intro s d hs; simp [unsafeInt64Opt, hs]
  · intro d; rfl
  · intro h v tok c d fuel r hr
    cases v with
    | nil =>
        simp [luaCppObjectOpt, LV.isNil, luaCppObjectGet, cppGet, getObjectT,
          getObject, LV.isUserdataV, Except.map] at hr
        exact ⟨.err "expect userdata, got nil", hr.symm⟩
    | boolean b =>
        simp [luaCppObjectOpt, LV.isNil] at hr
        exact ⟨.err "nil passed to reference", hr.symm⟩
    | num n =>
        simp [luaCppObjectOpt, LV.isNil] at hr
        exact ⟨.err "nil passed to reference", hr.symm⟩
    | str s =>
        simp [luaCppObjectOpt, LV.isNil] at hr
        exact ⟨.err "nil passed to reference", hr.symm⟩
    | table i =>
        simp [luaCppObjectOpt, LV.isNil] at hr
        exact ⟨.err "nil passed to reference", hr.symm⟩
    | lightud p =>
        simp [luaCppObjectOpt, LV.isNil] at hr
        exact ⟨.err "nil passed to reference", hr.symm⟩
    | userdata u =>
        simp [luaCppObjectOpt, LV.isNil] at hr
        exact ⟨.err "nil passed to reference", hr.symm⟩
    | cfn f =>
        simp [luaCppObjectOpt, LV.isNil] at hr
        exact ⟨.err "nil passed to reference", hr.symm⟩

/-- C8 counterexample: the bool specialization's `get` on a nil slot
returns false without raising, and the `lua_CFunction`
specialization's `get` on a table returns a null pointer without
raising. -/
theorem claim8_counterexample :
    boolGet .nil = .ok false ∧
    cfunctionGet (.table 0) = .ok none := by decide

/-- C8 (amended): the numeric and string specializations raise a VM
error when the slot is absent or of an inconvertible dynamic type
(nil, boolean, table, C function); but the bool specialization never
raises (`lua_toboolean` coerces every value) and the `lua_CFunction`
specialization returns a null pointer instead of raising. -/
theorem claim8_get_errors_amended :
    (∀ s : Slot, s = .absent ∨ s = .nil ∨ (∃ b, s = .boolean b) ∨
      (∃ i, s = .table i) ∨ (∃ f, s = .cfunction f) →
      (∃ e, intGet s = .error e) ∧ (∃ e, longGet s = .error e) ∧
      (∃ e, unsafeInt64Get s = .error e) ∧ (∃ e, stringGet s = .error e) ∧
      (∃ e, charGet s = .error e)) ∧
    (∀ s : Slot, ∃ b, boolGet s = .ok b) ∧
    (∀ s : Slot, (∀ f, s ≠ .cfunction f) → cfunctionGet s = .ok none) := by
  refine ⟨?_, ?_, ?_⟩
  · intro s hs
    rcases hs with rfl | rfl | ⟨b, rfl⟩ | ⟨i, rfl⟩ | ⟨f, rfl⟩ <;>
      exact ⟨⟨_, rfl⟩, ⟨_, rfl⟩, ⟨_, rfl⟩, ⟨_, rfl⟩, ⟨_, rfl⟩⟩
  · intro s; exact ⟨toBoolean s, rfl⟩
  · intro s hs
    cases s <;> simp [cfunctionGet]
    exact absurd rfl (hs _)

theorem demoAllocM_spec : allocate demoBuilt 0 false 5 = some (demoAllocM, 0) := by
  have hreg : demoBuilt.rawget registryId (.lightud (getClassIDOf 0 false)) =
      .table 5 := by decide
  have hu : demoBuilt.uds = [] := by decide
  have hn : demoBuilt.nextU = 0 := by decide
  simp [allocate, hreg, LV.asTable, demoAllocM, hu, hn]

theorem demoAllocC_spec : allocate demoBuilt 0 true 6 = some (demoAllocC, 0) := by
  have hreg : demoBuilt.rawget registryId (.lightud (getClassIDOf 0 true)) =
      .table 2 := by decide
  have hu : demoBuilt.uds = [] := by decide
  have hn : demoBuilt.nextU = 0 := by decide
  simp [allocate, hreg, LV.asTable, demoAllocC, hu, hn]

theorem demoAllocB_spec : allocate demoBuilt 0 true 0 = some (demoAllocB, 0) := by
  have hreg : demoBuilt.rawget registryId (.lightud (getClassIDOf 0 true)) =
      .table 2 := by decide
  have hu : demoBuilt.uds = [] := by decide
  have hn : demoBuilt.nextU = 0 := by decide
  simp [allocate, hreg, LV.asTable, demoAllocB, hu, hn]

theorem demoAllocD_spec : allocate demoBuilt 1 false 7 = some (demoAllocD, 0) := by
  have hreg : demoBuilt.rawget registryId (.lightud (getClassIDOf 1 false)) =
      .table 13 := by decide
  have hu : demoBuilt.uds = [] := by decide
  have hn : demoBuilt.nextU = 0 := by decide
  simp [allocate, hreg, LV.asTable, demoAllocD, hu, hn]

theorem demoAllocG1_spec :
    allocate demoGetterHeap 0 false 5 = some (demoAllocG1, 0) := by
  have hreg : demoGetterHeap.rawget registryId
      (.lightud (getClassIDOf 0 false)) = .table 5 := by decide
  have hu : demoGetterHeap.uds = [] := by decide
  have hn : demoGetterHeap.nextU = 0 := by decide
  simp [allocate, hreg, LV.asTable, demoAllocG1, hu, hn]

theorem demoAllocG2_spec :
    allocate demoAllocG1 0 true 6 = some (demoAllocG2, 1) := by
  have hreg : demoAllocG1.rawget registryId
      (.lightud (getClassIDOf 0 true)) = .table 2 := by decide
  have hu : demoAllocG1.uds = [(0, ⟨5, 5⟩)] := rfl
  have hn : demoAllocG1.nextU = 1 := rfl
  simp [allocate, hreg, LV.asTable, demoAllocG2, hu, hn]

theorem demoRegs_wf : RegsWF demoRegs := by
  refine ⟨by decide, by decide, ?_⟩
  intro k hk r hr st hst
  cases k with
  | zero =>
      rw [show demoRegs.get? 0 = some ⟨0, "Base", none⟩ from rfl] at hr
      obtain rfl := Option.some.inj hr
      exact Option.noConfusion hst
  | succ k =>
      cases k with
      | zero =>
          rw [show demoRegs.get? 1 = some ⟨1, "Derived", some 0⟩ from rfl] at hr
          obtain rfl := Option.some.inj hr
          obtain rfl := Option.some.inj hst
          exact ⟨0, Nat.zero_lt_one, ⟨0, "Base", none⟩, rfl, rfl⟩
      | succ k =>
          simp only [demoRegs, List.length] at hk
          omega

theorem claim1_witness :
    cppGet demoAllocM (.userdata 0) 0 true 3 = some (.ok 5) ∧
    cppGet demoAllocC (.userdata 0) 0 true 3 = some (.ok 6) ∧
    (∃ e, cppGet demoAllocC (.userdata 0) 0 false 3 = some (.error e)) :=
  claim1_const_retrieval demoRegs demoRegs_wf 0 ⟨0, "Base", none⟩ rfl 5 6 3
    (by decide) demoAllocM demoAllocC 0 0 demoAllocM_spec demoAllocC_spec

theorem claim2_witness :
    (∃ l2, [13, 5] = 13 :: l2) ∧
    (5 ∈ [13, 5] →
      getObject demoAllocD (.userdata 0) 1 false 3 = some (.ok 0)) ∧
    (5 ∉ [13, 5] →
      getObject demoAllocD (.userdata 0) 1 false 3 =
        some (.error (.err ("class<Base> expected, got class<Base>")))) :=
  claim2_walk_order demoAllocD 0 ⟨13, 7⟩ 1 5 3 [13, 5]
    "class<Base>" "class<Base>" (by decide) (by decide) (by decide)
    (by decide) (by decide)

theorem claim3_witness :
    ((chainTo demoAllocD 3 13 = some [13, 5]) →
     (∀ m ∈ [13, 5], demoAllocD.rawget m (.str "zzz") = .nil) →
     (∀ m ∈ [13, 5], ∃ g,
        demoAllocD.rawget m (.str "___getters") = .table g ∧
        ∀ f2 : CFun, demoAllocD.rawget g (.str "zzz") ≠ .cfn f2) →
     (∀ m ∈ [13, 5], ∃ s,
        demoAllocD.rawget m (.str "___setters") = .table s ∧
        ∀ f2 : CFun, demoAllocD.rawget s (.str "zzz") ≠ .cfn f2) →
     index demoAllocD demoEnv 3 (.userdata 0) (.str "zzz") =
       some (.ok .nil) ∧
     newIndex demoAllocD demoEnv 3 (.userdata 0) (.str "zzz") (.num 1) =
       some (.error (.err ("no writable class member " ++ quoteStr "zzz")))) ∧
    (∀ s0, demoAllocD.rawget 13 (.str "___setters") = .table s0 →
     demoAllocD.rawget s0 (.str "zzz") = .cfn (.errorReadOnly "zzz") →
     1 ≤ 3 →
     newIndex demoAllocD demoEnv 3 (.userdata 0) (.str "zzz") (.num 1) =
       some (.error (.err ("class member " ++ quoteStr "zzz" ++
         " is read-only")))) :=
  claim3_missing_member demoAllocD demoEnv 3 0 ⟨13, 7⟩ "zzz"
    (.num 1) [13, 5] (by decide) (by decide)

theorem claim4_witness :
    (setMemberFunction demoAllocB 7 "foo" (.cfn (.classMethod 0 false 0))
      false).rawget 5 (.str "foo") = .cfn (.classMethod 0 false 0) ∧
    (setMemberFunction demoAllocB 7 "foo" (.cfn (.classMethod 0 false 0))
      false).rawget 2 (.str "foo") = .cfn (.errorConstMismatch "foo") ∧
    index (setMemberFunction demoAllocB 7 "foo"
      (.cfn (.classMethod 0 false 0)) false) demoEnv 1
      (.userdata 0) (.str "foo") =
      some (.ok (.cfn (.errorConstMismatch "foo"))) ∧
    callCFun (setMemberFunction demoAllocB 7 "foo"
      (.cfn (.classMethod 0 false 0)) false) demoEnv 1
      (.errorConstMismatch "foo") [] =
      some (.error (.err ("class member function " ++ quoteStr "foo" ++
        " can not be access by const object")), false) :=
  claim4_const_stub demoAllocB demoEnv 7 5 2 0 0 "foo"
    (.cfn (.classMethod 0 false 0)) 1 [] (by decide) (by decide) (by decide)
    (by decide) (by decide) (by decide) (by decide) (by decide) (by decide)
    (by decide)

theorem claim9_witness :
    demoBuilt.rawget 5 (.str "___getters") = .table 3 ∧
    demoBuilt.rawget 2 (.str "___getters") = .table 3 ∧
    demoBuilt.rawget 5 (.str "___setters") = .table 6 ∧
    demoBuilt.rawget 2 (.str "___setters") = .table 4 ∧
    (6 : Nat) ≠ 4 ∧
    demoGetterHeap.rawget 3 (.str "value") = .cfn (.memberGetter 0 0) ∧
    index demoAllocG2 demoEnv 2 (.userdata 0) (.str "value") =
      some (.ok (demoEnv.readVar 0 5)) ∧
    index demoAllocG2 demoEnv 2 (.userdata 1) (.str "value") =
      some (.ok (demoEnv.readVar 0 6)) :=
  claim9_shared_getter_table demoRegs demoRegs_wf 0 ⟨0, "Base", none⟩ rfl
    "value" 0 5 6 2 demoEnv (by decide) (by decide) (by decide) (by decide)
    (by decide) (by decide) (by decide) (by decide) (by decide)
    demoAllocG1 demoAllocG2 0 1 demoAllocG1_spec demoAllocG2_spec

theorem claim10_witness :
    getExactObjectT demoAllocD (.userdata 0) 1 false = some (.ok 0) ∧
    (∃ e, getExactObjectT demoAllocD (.userdata 0) 0 false =
      some (.error e)) ∧
    getObjectT demoAllocD (.userdata 0) 0 false 3 = some (.ok 0) ∧
    demoAllocD.rawget 13 (.str "__gc") = .cfn (.destructor 1 false) ∧
    callCFun demoAllocD demoEnv 3 (.destructor 1 false) [.userdata 0] =
      some (.ok [], true) ∧
    (∃ e, callCFun demoAllocD demoEnv 3 (.destructor 0 false) [.userdata 0] =
      some (.error e, false)) :=
  claim10_exact_object demoRegs demoRegs_wf 1 0 ⟨1, "Derived", some 0⟩
    ⟨0, "Base", none⟩ rfl rfl
    (.step 1 0 0 ⟨1, "Derived", some 0⟩ ⟨0, "Base", none⟩ rfl rfl rfl
      (.refl 0))
    (by decide) 7 3 (by decide) demoAllocD 0 demoEnv demoAllocD_spec

theorem claim5_witness :
    methodCall (.ok 1) [] [] 1 (fun r _ => Except.ok [Slot.integer r]) =
      (.ok [.integer 1], true) :=
  (claim5_batch_conversion (.ok 1) [] [] 1
    (fun r _ => Except.ok [Slot.integer r])).2.2.2 1 [] [.integer 1]
    rfl rfl rfl

theorem claim6_witness :
    intGet (intPush (-7)) = .ok (-7) ∧
    (unsafeInt64Push false 9007199254740992).bind unsafeInt64Get =
      .ok 9007199254740992 :=
  ⟨claim6_roundtrip_amended.2.2.1 (-7) (by decide) (by decide),
   claim6_roundtrip_amended.2.2.2.2.2.1 9007199254740992 (by decide)
     (by decide)⟩

theorem claim7_witness :
    luaCppObjectPtrOpt initialHeap .nil 0 true 42 1 = some (.ok 42) ∧
    intOpt .nil 42 = .ok 42 :=
  ⟨claim7_opt_default_amended.1 initialHeap 0 42 1 true,
   claim7_opt_default_amended.2.1 .nil 42 rfl⟩

theorem claim8_witness :
    (∃ e, intGet Slot.nil = .error e) ∧
    (∃ b, boolGet (Slot.table 3) = .ok b) ∧
    cfunctionGet (Slot.str []) = .ok none :=
  ⟨(claim8_get_errors_amended.1 Slot.nil (Or.inr (Or.inl rfl))).1,
   claim8_get_errors_amended.2.1 (Slot.table 3),
   claim8_get_errors_amended.2.2 (Slot.str [])
     (fun _ h => Slot.noConfusion h)⟩

end LuaIntfProof
